import Mathlib

/-!
# Verification of the agentica-server WASI cross-build pipeline

Shallow embedding of the three build scripts
`src/sandbox/build/build_cpython.sh` (ToolchainProvisioner + RuntimeCrossBuilder),
`src/sandbox/build/build_xxhash.sh` and the msgspec build script contained in
`src/sandbox/build/build_host.sh` (ExtensionBuilder instances).

Each script is modelled as a deterministic function from an abstract
environment (version pins, checksum-file contents, network contents, archive
contents) and an abstract filesystem state to a run result: an ordered list of
events (an external action paired with the filesystem state right after it)
plus an exit code.  `set -euo pipefail` semantics are modelled by each failing
command ending the run immediately.  File contents are abstracted to their
SHA-256 digest (a `Nat`); a file being only partially written (e.g. by an
interrupted `tar -czf`) is the distinguished content `Content.incomplete`,
which is what makes crash/rerun reasoning expressible: `[ -f path ]` is true
for an incomplete file even though its digest matches nothing.
-/

namespace Pipeline

/-- Boolean string-prefix test over the character lists (the glob test
`[[ "$OSTYPE" == "linux-gnu"* ]]`). -/
def strIsPrefixOf (p s : String) : Bool :=
  p.data.isPrefixOf s.data

/-- Drop the first `n` characters of a string. -/
def strDrop (s : String) (n : Nat) : String :=
  String.mk (s.data.drop n)

/-- Abstract content of a file: either completely written, with its abstract
SHA-256 digest, or partially written (as left behind by an interrupted
incremental writer such as `tar -czf`). -/
inductive Content where
  | complete (digest : Nat)
  | incomplete
deriving DecidableEq, Repr

/-- Abstract filesystem: association list of files (path to content, first
binding wins), plus the sets of existing directories and executable files. -/
structure FS where
  files : List (String × Content)
  dirs : List String
  execs : List String
deriving DecidableEq, Repr

/-- Bash `[ -f p ]`: true as soon as a file exists at `p`, complete or not. -/
def FS.fileExists (fs : FS) (p : String) : Bool :=
  (fs.files.lookup p).isSome

/-- Bash `[ -d p ]`. -/
def FS.dirExists (fs : FS) (p : String) : Bool :=
  fs.dirs.contains p

/-- Bash `[ -x p ]`. -/
def FS.isExec (fs : FS) (p : String) : Bool :=
  fs.execs.contains p

def FS.setFile (fs : FS) (p : String) (c : Content) : FS :=
  { fs with files := (p, c) :: fs.files.filter (fun e => e.1 != p) }

def FS.removeFile (fs : FS) (p : String) : FS :=
  { fs with files := fs.files.filter (fun e => e.1 != p) }

def FS.addDir (fs : FS) (d : String) : FS :=
  { fs with dirs := d :: fs.dirs }

/-- The path `p` is `root` itself or lies under directory `root`. -/
def underTree (root p : String) : Bool :=
  p == root || strIsPrefixOf (root ++ "/") p

/-- Model of `rm -rf root`: drop every file, directory and executable under `root`. -/
def FS.removeTree (fs : FS) (root : String) : FS :=
  { files := fs.files.filter (fun e => !(underTree root e.1)),
    dirs := fs.dirs.filter (fun d => !(underTree root d)),
    execs := fs.execs.filter (fun p => !(underTree root p)) }

def renamePath (old new p : String) : String :=
  if p == old then new
  else if strIsPrefixOf (old ++ "/") p then new ++ strDrop p old.length
  else p

/-- Model of `mv old new` for a directory tree. -/
def FS.renameTree (fs : FS) (old new : String) : FS :=
  { files := fs.files.map (fun e => (renamePath old new e.1, e.2)),
    dirs := fs.dirs.map (renamePath old new),
    execs := fs.execs.map (renamePath old new) }

/-- External actions a script run performs, in order.  `verify` records the
checksum file used, whether `--ignore-missing` was passed, and whether the
check succeeded; `download` records whether `curl` succeeded. -/
inductive Act where
  | log (msg : String)
  | download (url : String) (dest : String) (ok : Bool)
  | verify (sumFile : String) (ignoreMissing : Bool) (ok : Bool)
  | unpack (archive : String) (dest : String)
  | move (src : String) (dest : String)
  | copyTree (src : String) (dest : String)
  | compile (src : String) (out : String) (flags : List String)
  | link (out : String) (flags : List String) (inputs : List String)
  | configure (what : String)
  | removePath (p : String)
  | tarBegin (srcDir : String) (out : String)
  | tarFinish (srcDir : String) (out : String)
  | errorExit (msg : String)
deriving DecidableEq, Repr

/-- Result of running one script: the events in order, each paired with the
filesystem state immediately after it, and the script's exit code. -/
structure RunResult where
  events : List (Act × FS)
  exit : Nat
deriving Repr

def traceOf (r : RunResult) : List Act :=
  r.events.map Prod.fst

/-- Filesystem state after the whole run (the initial state if no event ran). -/
def finalFS (init : FS) (r : RunResult) : FS :=
  (r.events.map Prod.snd).getLastD init

/-- Filesystem state after the first `k` events: the state seen if the run is
killed right after its `k`-th external action.  Beyond the end of the run this
is the final state. -/
def crashFS (init : FS) (r : RunResult) (k : Nat) : FS :=
  (init :: r.events.map Prod.snd).getD k (finalFS init r)

/-- Build environment: platform inputs, version pins, contents of the
repository's checksum files, the network (url to digest of the served bytes),
and the contents of archives (digest of the archive to the directories, files
and executables that `tar -x` creates from it, relative to the extraction
directory). -/
structure Env where
  ostype : String
  unameArch : String
  xxhashVer : String
  msgspecVer : String
  network : List (String × Nat)
  xxhashSums : List (String × Nat)
  msgspecSums : List (String × Nat)
  wasiSums : List (String × Nat)
  pythonSums : List (String × Nat)
  clangResourceDir : String
  tarDirs : Nat → List String
  tarFiles : Nat → List (String × Nat)
  tarExecs : Nat → List String

/-- Model of `tar -C dest -xf` an archive with digest `d`: create the archive's
directories, files and executables under `dest`. -/
def FS.extractTar (fs : FS) (env : Env) (dest : String) (d : Nat) : FS :=
  let fs1 := (env.tarDirs d).foldl (fun a dir => a.addDir (dest ++ "/" ++ dir)) fs
  let fs2 := (env.tarFiles d).foldl
    (fun a e => a.setFile (dest ++ "/" ++ e.1) (Content.complete e.2)) fs1
  { fs2 with execs := (env.tarExecs d).map (fun p => dest ++ "/" ++ p) ++ fs2.execs }

/-- One line of a checksum file verifies: the named file exists (relative to
`dir`), is completely written, and its digest equals the expected one. -/
def entryOk (fs : FS) (dir : String) (e : String × Nat) : Bool :=
  match fs.files.lookup (dir ++ "/" ++ e.1) with
  | some (Content.complete d) => d == e.2
  | _ => false

def entryPresent (fs : FS) (dir : String) (e : String × Nat) : Bool :=
  (fs.files.lookup (dir ++ "/" ++ e.1)).isSome

/-- Model of `(cd dir && shasum -a 256 -c sums)`: with `--ignore-missing`, entries whose
file is absent are skipped, every present entry must match, and at least one
file must have been verified; without it, every listed file must be present
and match. -/
def shasumCheck (ignoreMissing : Bool) (fs : FS) (dir : String)
    (entries : List (String × Nat)) : Bool :=
  if ignoreMissing then
    entries.any (entryPresent fs dir) &&
      entries.all (fun e => !(entryPresent fs dir e) || entryOk fs dir e)
  else
    entries.all (entryOk fs dir)

/-- Result of the platform-detection block of `build_cpython.sh`
(lines 15-30). -/
inductive PlatformResult where
  | ok (tag : String)
  | unsupported (ostype : String)
deriving DecidableEq, Repr

/-- Platform detection of `build_cpython.sh`: branches on `$OSTYPE`
(`linux-gnu*` or `darwin*`), normalizes only `aarch64` to `arm64` and only on
Linux, and builds `"${ARCH}-${OS}"`.  Any other `$OSTYPE` fails; the
architecture string is otherwise passed through unchecked. -/
def resolvePlatform (ostype arch : String) : PlatformResult :=
  if strIsPrefixOf "linux-gnu" ostype then
    let arch2 := if arch == "aarch64" then "arm64" else arch
    PlatformResult.ok (arch2 ++ "-linux")
  else if strIsPrefixOf "darwin" ostype then
    PlatformResult.ok (arch ++ "-macos")
  else
    PlatformResult.unsupported ostype

/-- Boolean string-suffix test over the character lists (glob `*.py`). -/
def strEndsWith (s suffix : String) : Bool :=
  suffix.data.isSuffixOf s.data

/-- The files that `cp dir/*SUF dest/` would copy: direct children of `dir`
whose name ends in `suf`. -/
def globChildren (fs : FS) (dir suf : String) : List (String × Content) :=
  fs.files.filter (fun e =>
    strIsPrefixOf (dir ++ "/") e.1 &&
    !((strDrop e.1 (dir.length + 1)).data.contains '/') &&
    strEndsWith e.1 suf)

/-- Copy the given files (with paths under `srcDir`) into `destDir`, keeping
their names. -/
def copyFilesTo (fs : FS) (entries : List (String × Content))
    (srcDir destDir : String) : FS :=
  entries.foldl
    (fun a e => a.setFile (destDir ++ "/" ++ strDrop e.1 (srcDir.length + 1)) e.2) fs

/-- Copy a whole file tree from under `srcRoot` to under `destRoot`. -/
def copyTreeFS (fs : FS) (srcRoot destRoot : String) : FS :=
  ((fs.files.filter (fun e => strIsPrefixOf (srcRoot ++ "/") e.1)).map
    (fun e => (destRoot ++ "/" ++ strDrop e.1 (srcRoot.length + 1), e.2))).foldl
    (fun a e => a.setFile e.1 e.2) fs

/-- Abstract digest of the gzip tarball that `tar -czf` produces from the tree
under `root`: deterministic in the tree's contents. -/
def treeDigest (fs : FS) (root : String) : Nat :=
  ((fs.files.filter (fun e => strIsPrefixOf (root ++ "/") e.1)).map
    (fun e => match e.2 with
      | Content.complete d => d + e.1.length
      | Content.incomplete => e.1.length)).sum

-- Shared path constants (`TOOL_DIR` and friends, relative to the build root)

def toolDir : String := "_tooling"
def wasiDir : String := "_tooling/wasi-sdk-27.0"
def pyHeadersDir : String := "_tooling/py-headers-3.12"

-- `build_xxhash.sh` configuration (lines 14-19, 46-47, 96-97, 136-137)

def xxhashOutTar : String := "_tooling/xxhash-wasi.tar.gz"
def xxhashBuildDir : String := "_tooling/build-xxhash"
def xxhashPkgDir : String := "_tooling/build-xxhash/pkg"
def xxhashCpythonTag : String := "cpython-312"
def xxhashExtTriple : String := "wasm32-wasi"
def xxhashExtBasename : String := "_xxhash"
/-- Source line 137: EXT_NAME is basename.tag-triple.so -/
def xxhashExtName : String :=
  xxhashExtBasename ++ "." ++ xxhashCpythonTag ++ "-" ++ xxhashExtTriple ++ ".so"

def xxhashSrcTop (ver : String) : String :=
  "_tooling/build-xxhash/xxhash-" ++ ver

def xxhashArchiveFile (ver : String) : String :=
  "_tooling/xxhash-" ++ ver ++ "-pypi.tar.gz"

def xxhashArchiveUrl (ver : String) : String :=
  "https://files.pythonhosted.org/packages/source/x/xxhash/xxhash-" ++ ver ++ ".tar.gz"

/-- Compiler flags of the two `clang -c` invocations of `build_xxhash.sh`
(lines 115-134). -/
def xxhashCompileFlags (ver : String) : List String :=
  ["--target=wasm32-wasi",
   "--sysroot=" ++ wasiDir ++ "/share/wasi-sysroot",
   "-I" ++ pyHeadersDir,
   "-I" ++ pyHeadersDir ++ "/cpython",
   "-I" ++ xxhashSrcTop ver ++ "/src",
   "-I" ++ xxhashSrcTop ver ++ "/xxhash",
   "-I" ++ xxhashSrcTop ver ++ "/deps/xxhash",
   "-O3", "-DNDEBUG", "-fPIC", "-std=c99", "-fvisibility=default",
   "-DSSIZE_MAX=2147483647"]

/-- Flags of the `wasm-ld` invocation of `build_xxhash.sh` (lines 138-144). -/
def xxhashLinkFlags (rtDir : String) : List String :=
  ["--no-entry", "--shared", "--export-dynamic", "--allow-undefined",
   "--export=PyInit__xxhash", "-L" ++ rtDir]

-- msgspec build script configuration (in `build_host.sh`)

def msgspecOutTar : String := "_tooling/msgspec-wasi.tar.gz"
def msgspecBuildDir : String := "_tooling/build-msgspec"
def msgspecPkgDir : String := "_tooling/build-msgspec/pkg"
def msgspecCpythonTag : String := "cpython-312"
def msgspecExtTriple : String := "wasm32-wasi"
def msgspecExtBasename : String := "_core"
/-- Source line 114: EXT_NAME is basename.tag-triple.so -/
def msgspecExtName : String :=
  msgspecExtBasename ++ "." ++ msgspecCpythonTag ++ "-" ++ msgspecExtTriple ++ ".so"

def msgspecSrcTop (ver : String) : String :=
  "_tooling/build-msgspec/msgspec-" ++ ver

def msgspecArchiveFile (ver : String) : String :=
  "_tooling/msgspec-" ++ ver ++ "-github.tar.gz"

def msgspecArchiveUrl (ver : String) : String :=
  "https://github.com/jcrist/msgspec/archive/refs/tags/" ++ ver ++ ".tar.gz"

/-- Compiler flags of the `clang -c` invocation of the msgspec build script. -/
def msgspecCompileFlags : List String :=
  ["--target=wasm32-wasi",
   "--sysroot=" ++ wasiDir ++ "/share/wasi-sysroot",
   "-I" ++ pyHeadersDir,
   "-I" ++ pyHeadersDir ++ "/cpython",
   "-O3", "-DNDEBUG", "-fPIC", "-std=c99",
   "-DSSIZE_MAX=2147483647"]

/-- Flags of the `wasm-ld` invocation of the msgspec build script: note the
absence of any `--export=PyInit...` flag. -/
def msgspecLinkFlags (rtDir : String) : List String :=
  ["--no-entry", "--shared", "--export-dynamic", "--allow-undefined",
   "-L" ++ rtDir]

/-- Script `build_xxhash.sh` from the checksum verification (line 71) to the end:
verify, unpack, layout check, copy of the pure-Python files, compile, link,
package.  `evs` are the events already performed, `fs` the current state. -/
def xxhashFromVerify (env : Env) (evs : List (Act × FS)) (fs : FS) : RunResult :=
  -- lines 71-72: (cd "$TOOL_DIR" && shasum -a 256 -c "$ROOT/xxhash.sha256sum")
  let ok := shasumCheck false fs toolDir env.xxhashSums
  let evs1 := evs ++ [(Act.verify "xxhash.sha256sum" false ok, fs)]
  if !ok then
    { events := evs1, exit := 1 }
  else
    -- lines 74-75: tar -C "$BUILD_DIR" -xf "$ARCHIVE_FILE"
    match fs.files.lookup (xxhashArchiveFile env.xxhashVer) with
    | some (Content.complete d) =>
      let fs2 := fs.extractTar env xxhashBuildDir d
      let evs2 := evs1 ++ [(Act.unpack (xxhashArchiveFile env.xxhashVer) xxhashBuildDir, fs2)]
      let srcTop := xxhashSrcTop env.xxhashVer
      -- lines 78-82: sdist layout check
      if !(fs2.dirExists srcTop) then
        { events := evs2 ++
            [(Act.errorExit ("[xxhash] Error: Unexpected sdist layout; cannot find " ++ srcTop), fs2)],
          exit := 1 }
      else
        -- lines 85-90: copy *.py (fails when none), *.pyi (|| true), py.typed (guarded)
        let pys := globChildren fs2 (srcTop ++ "/xxhash") ".py"
        if pys.isEmpty then
          { events := evs2 ++ [(Act.errorExit "cp: no .py sources", fs2)], exit := 1 }
        else
          let fs3 := copyFilesTo (fs2.addDir (xxhashPkgDir ++ "/xxhash")) pys
            (srcTop ++ "/xxhash") (xxhashPkgDir ++ "/xxhash")
          let fs4 := copyFilesTo fs3 (globChildren fs3 (srcTop ++ "/xxhash") ".pyi")
            (srcTop ++ "/xxhash") (xxhashPkgDir ++ "/xxhash")
          let fs5 :=
            match fs4.files.lookup (srcTop ++ "/xxhash/py.typed") with
            | some c => fs4.setFile (xxhashPkgDir ++ "/xxhash/py.typed") c
            | none => fs4
          let evs3 := evs2 ++ [(Act.copyTree (srcTop ++ "/xxhash") (xxhashPkgDir ++ "/xxhash"), fs5)]
          -- lines 93-94: mkdir -p "$OBJ_DIR"
          let objDir := xxhashBuildDir ++ "/obj"
          let fs6 := fs5.addDir objDir
          -- lines 101-109: locate the wrapper source under src/ or xxhash/
          let wrapC :=
            if fs6.fileExists (srcTop ++ "/src/_xxhash.c") then
              some (srcTop ++ "/src/_xxhash.c")
            else if fs6.fileExists (srcTop ++ "/xxhash/_xxhash.c") then
              some (srcTop ++ "/xxhash/_xxhash.c")
            else none
          match wrapC with
          | none =>
            { events := evs3 ++
                [(Act.errorExit "[xxhash] Error: Could not find Python wrapper source (_xxhash.c) in src/ or xxhash/", fs6)],
              exit := 1 }
          | some wrap =>
            -- lines 115-124: compile the wrapper
            let obj1 := objDir ++ "/" ++ xxhashExtBasename ++ ".o"
            let fs7 := fs6.setFile obj1 (Content.complete 0)
            let evs4 := evs3 ++ [(Act.compile wrap obj1 (xxhashCompileFlags env.xxhashVer), fs7)]
            -- lines 127-134: compile the bundled core; clang fails if absent
            let core := srcTop ++ "/deps/xxhash/xxhash.c"
            if !(fs7.fileExists core) then
              { events := evs4 ++ [(Act.compile core (objDir ++ "/xxhash_core.o")
                  (xxhashCompileFlags env.xxhashVer), fs7)], exit := 1 }
            else
              let obj2 := objDir ++ "/xxhash_core.o"
              let fs8 := fs7.setFile obj2 (Content.complete 0)
              let evs5 := evs4 ++ [(Act.compile core obj2 (xxhashCompileFlags env.xxhashVer), fs8)]
              -- lines 137-144: link the shared module
              let rtDir := env.clangResourceDir ++ "/lib/wasm32-unknown-wasi"
              let modPath := xxhashPkgDir ++ "/xxhash/" ++ xxhashExtName
              let fs9 := fs8.setFile modPath (Content.complete 0)
              let evs6 := evs5 ++ [(Act.link modPath (xxhashLinkFlags rtDir)
                  [obj1, obj2, rtDir ++ "/libclang_rt.builtins.a"], fs9)]
              -- lines 149-150: rm -f "$OUT_TAR"; tar -C "$PKG_DIR" -czf "$OUT_TAR" xxhash
              let fs10 := fs9.removeFile xxhashOutTar
              let fs11 := fs10.setFile xxhashOutTar Content.incomplete
              let fs12 := fs11.setFile xxhashOutTar
                (Content.complete (treeDigest fs11 (xxhashPkgDir ++ "/xxhash")))
              { events := evs6 ++
                  [(Act.removePath xxhashOutTar, fs10),
                   (Act.tarBegin xxhashPkgDir xxhashOutTar, fs11),
                   (Act.tarFinish xxhashPkgDir xxhashOutTar, fs12)],
                exit := 0 }
    | _ =>
      -- tar aborts on a truncated or unreadable archive
      { events := evs1 ++ [(Act.errorExit "tar: unreadable archive", fs)], exit := 1 }

/-- Script `build_xxhash.sh`: cache check, prerequisite checks, fetch, then
`xxhashFromVerify`. -/
def runXxhash (env : Env) (fs0 : FS) : RunResult :=
  -- line 12: mkdir -p "$TOOL_DIR"
  let fs1 := fs0.addDir toolDir
  -- lines 22-25: cache hit on the final tarball
  if fs1.fileExists xxhashOutTar then
    { events := [(Act.log "[xxhash] Cache hit: skipping build", fs1)], exit := 0 }
  -- lines 31-34: WASI SDK prerequisite
  else if !(fs1.isExec (wasiDir ++ "/bin/clang")) then
    { events := [(Act.errorExit "[xxhash] Error: WASI SDK not found; run build_cpython.sh first", fs1)],
      exit := 1 }
  -- lines 37-44: Python headers prerequisite
  else if !(fs1.dirExists pyHeadersDir) then
    { events := [(Act.errorExit "[xxhash] Error: Python 3.12 headers not found; run build_cpython.sh first", fs1)],
      exit := 1 }
  else
    -- lines 50-55: compiler runtime dir
    let rtDir := env.clangResourceDir ++ "/lib/wasm32-unknown-wasi"
    if !(fs1.dirExists rtDir) then
      { events := [(Act.errorExit ("[xxhash] Error: compiler runtime dir not found: " ++ rtDir), fs1)],
        exit := 1 }
    else
      -- lines 57-58: rm -rf "$BUILD_DIR"; mkdir -p "$BUILD_DIR" "$PKG_DIR"
      let fs2 := ((fs1.removeTree xxhashBuildDir).addDir xxhashBuildDir).addDir xxhashPkgDir
      let resetEv : Act × FS := (Act.removePath xxhashBuildDir, fs2)
      -- lines 64-69: download the sdist unless already cached
      let archiveFile := xxhashArchiveFile env.xxhashVer
      if fs2.fileExists archiveFile then
        xxhashFromVerify env
          [resetEv, (Act.log ("[xxhash] Using cached " ++ archiveFile), fs2)] fs2
      else
        match env.network.lookup (xxhashArchiveUrl env.xxhashVer) with
        | some d =>
          let fs3 := fs2.setFile archiveFile (Content.complete d)
          xxhashFromVerify env
            [resetEv, (Act.download (xxhashArchiveUrl env.xxhashVer) archiveFile true, fs3)] fs3
        | none =>
          { events := [resetEv,
              (Act.download (xxhashArchiveUrl env.xxhashVer) archiveFile false, fs2)],
            exit := 1 }

/-- The msgspec build script from its checksum verification to the end. -/
def msgspecFromVerify (env : Env) (evs : List (Act × FS)) (fs : FS) : RunResult :=
  -- (cd "$TOOL_DIR" && shasum -a 256 -c "$ROOT/msgspec.sha256sum")
  let ok := shasumCheck false fs toolDir env.msgspecSums
  let evs1 := evs ++ [(Act.verify "msgspec.sha256sum" false ok, fs)]
  if !ok then
    { events := evs1, exit := 1 }
  else
    -- tar -C "$BUILD_DIR" -xf "$ARCHIVE_FILE"
    match fs.files.lookup (msgspecArchiveFile env.msgspecVer) with
    | some (Content.complete d) =>
      let fs2 := fs.extractTar env msgspecBuildDir d
      let evs2 := evs1 ++ [(Act.unpack (msgspecArchiveFile env.msgspecVer) msgspecBuildDir, fs2)]
      let srcTop := msgspecSrcTop env.msgspecVer
      -- archive layout check
      if !(fs2.dirExists srcTop) then
        { events := evs2 ++
            [(Act.errorExit ("[msgspec] Error: Unexpected sdist layout; cannot find " ++ srcTop), fs2)],
          exit := 1 }
      else
        -- cp of *.py, *.pyi and py.typed, each with `|| true` (never fails)
        let fs3 := copyFilesTo (fs2.addDir (msgspecPkgDir ++ "/msgspec"))
          (globChildren fs2 (srcTop ++ "/msgspec") ".py")
          (srcTop ++ "/msgspec") (msgspecPkgDir ++ "/msgspec")
        let fs4 := copyFilesTo fs3 (globChildren fs3 (srcTop ++ "/msgspec") ".pyi")
          (srcTop ++ "/msgspec") (msgspecPkgDir ++ "/msgspec")
        let fs5 :=
          match fs4.files.lookup (srcTop ++ "/msgspec/py.typed") with
          | some c => fs4.setFile (msgspecPkgDir ++ "/msgspec/py.typed") c
          | none => fs4
        let evs3 := evs2 ++ [(Act.copyTree (srcTop ++ "/msgspec") (msgspecPkgDir ++ "/msgspec"), fs5)]
        -- mkdir -p "$OBJ_DIR"; compile msgspec/_core.c (clang fails if absent)
        let objDir := msgspecBuildDir ++ "/obj"
        let fs6 := fs5.addDir objDir
        let core := srcTop ++ "/msgspec/_core.c"
        if !(fs6.fileExists core) then
          { events := evs3 ++ [(Act.compile core (objDir ++ "/_core.o") msgspecCompileFlags, fs6)],
            exit := 1 }
        else
          let obj1 := objDir ++ "/_core.o"
          let fs7 := fs6.setFile obj1 (Content.complete 0)
          let evs4 := evs3 ++ [(Act.compile core obj1 msgspecCompileFlags, fs7)]
          -- wasm-ld link of the shared module (no --export=PyInit__core flag)
          let rtDir := env.clangResourceDir ++ "/lib/wasm32-unknown-wasi"
          let modPath := msgspecPkgDir ++ "/msgspec/" ++ msgspecExtName
          let fs8 := fs7.setFile modPath (Content.complete 0)
          let evs5 := evs4 ++ [(Act.link modPath (msgspecLinkFlags rtDir)
              [obj1, rtDir ++ "/libclang_rt.builtins.a"], fs8)]
          -- rm -f "$OUT_TAR" || true; tar -C "$PKG_DIR" -czf "$OUT_TAR" msgspec
          let fs9 := fs8.removeFile msgspecOutTar
          let fs10 := fs9.setFile msgspecOutTar Content.incomplete
          let fs11 := fs10.setFile msgspecOutTar
            (Content.complete (treeDigest fs10 (msgspecPkgDir ++ "/msgspec")))
          { events := evs5 ++
              [(Act.removePath msgspecOutTar, fs9),
               (Act.tarBegin msgspecPkgDir msgspecOutTar, fs10),
               (Act.tarFinish msgspecPkgDir msgspecOutTar, fs11)],
            exit := 0 }
    | _ =>
      { events := evs1 ++ [(Act.errorExit "tar: unreadable archive", fs)], exit := 1 }

/-- The msgspec build script contained in `build_host.sh`: cache check,
prerequisite checks, fetch, then `msgspecFromVerify`.  Structurally the same
stage as `runXxhash`, with msgspec's paths, flags and copy behavior. -/
def runMsgspec (env : Env) (fs0 : FS) : RunResult :=
  -- mkdir -p "$TOOL_DIR"
  let fs1 := fs0.addDir toolDir
  -- cache hit on the final tarball
  if fs1.fileExists msgspecOutTar then
    { events := [(Act.log "[msgspec] Cache hit: skipping build", fs1)], exit := 0 }
  -- WASI SDK prerequisite
  else if !(fs1.isExec (wasiDir ++ "/bin/clang")) then
    { events := [(Act.errorExit "[msgspec] Error: WASI SDK not found; run build_cpython.sh first", fs1)],
      exit := 1 }
  -- Python headers prerequisite
  else if !(fs1.dirExists pyHeadersDir) then
    { events := [(Act.errorExit "[msgspec] Error: Python 3.12 headers not found; run build_cpython.sh first", fs1)],
      exit := 1 }
  else
    -- compiler runtime dir
    let rtDir := env.clangResourceDir ++ "/lib/wasm32-unknown-wasi"
    if !(fs1.dirExists rtDir) then
      { events := [(Act.errorExit ("[msgspec] Error: compiler runtime dir not found: " ++ rtDir), fs1)],
        exit := 1 }
    else
      -- rm -rf "$BUILD_DIR"; mkdir -p "$BUILD_DIR" "$PKG_DIR"
      let fs2 := ((fs1.removeTree msgspecBuildDir).addDir msgspecBuildDir).addDir msgspecPkgDir
      let resetEv : Act × FS := (Act.removePath msgspecBuildDir, fs2)
      -- download the GitHub archive unless already cached
      let archiveFile := msgspecArchiveFile env.msgspecVer
      if fs2.fileExists archiveFile then
        msgspecFromVerify env
          [resetEv, (Act.log ("[msgspec] Using cached " ++ archiveFile), fs2)] fs2
      else
        match env.network.lookup (msgspecArchiveUrl env.msgspecVer) with
        | some d =>
          let fs3 := fs2.setFile archiveFile (Content.complete d)
          msgspecFromVerify env
            [resetEv, (Act.download (msgspecArchiveUrl env.msgspecVer) archiveFile true, fs3)] fs3
        | none =>
          { events := [resetEv,
              (Act.download (msgspecArchiveUrl env.msgspecVer) archiveFile false, fs2)],
            exit := 1 }

-- `build_cpython.sh` configuration

def wasiTag : String := "wasi-sdk-27"
def pyVer : String := "3.12.0"
def pySrcDir : String := "_tooling/Python-3.12.0"
def pyTarballPath : String := "_tooling/Python-3.12.0.tgz"

def wasiTarballPath (platform : String) : String :=
  "_tooling/wasi-sdk-27.0-" ++ platform ++ ".tar.gz"

def wasiUrl (platform : String) : String :=
  "https://github.com/WebAssembly/wasi-sdk/releases/download/" ++ wasiTag ++
    "/wasi-sdk-27.0-" ++ platform ++ ".tar.gz"

def pyUrl : String :=
  "https://www.python.org/ftp/python/" ++ pyVer ++ "/Python-" ++ pyVer ++ ".tgz"

/-- Lines 95-143 of `build_cpython.sh`: `pushd` into the source tree, `uv sync`,
`./configure` for the wasm32-wasi host, then copy `Include/` and `pyconfig.h`
into the header bundle. -/
def cpythonConfigure (env : Env) (evs : List (Act × FS)) (fs : FS) : RunResult :=
  -- line 95: pushd "$PY_SRC" fails if extraction did not create it
  if !(fs.dirExists pySrcDir) then
    { events := evs ++ [(Act.errorExit ("pushd: no such directory: " ++ pySrcDir), fs)],
      exit := 1 }
  else
    -- lines 101-131: uv sync, then ./configure
    let evs1 := evs ++ [(Act.configure "uv sync", fs),
      (Act.configure "cpython ./configure --host=wasm32-unknown-wasi", fs)]
    -- lines 133-139: rm -rf "$HEADERS_OUT"; mkdir; cp Include/* pyconfig.h
    let fs1 := (fs.removeTree pyHeadersDir).addDir pyHeadersDir
    let fs2 := copyTreeFS fs1 (pySrcDir ++ "/Include") pyHeadersDir
    let fs3 :=
      match fs2.files.lookup (pySrcDir ++ "/pyconfig.h") with
      | some c => fs2.setFile (pyHeadersDir ++ "/pyconfig.h") c
      | none => fs2
    { events := evs1 ++ [(Act.copyTree (pySrcDir ++ "/Include") pyHeadersDir, fs3)],
      exit := 0 }

/-- Lines 84-93 of `build_cpython.sh`: verify the CPython source tarball, then
extract it unless the source tree already exists. -/
def cpythonPyVerify (env : Env) (evs : List (Act × FS)) (fs : FS) : RunResult :=
  -- lines 84-85: (cd "$TOOL_DIR" && shasum -a 256 -c "$ROOT/python.sha256sum")
  let ok := shasumCheck false fs toolDir env.pythonSums
  let evs1 := evs ++ [(Act.verify "python.sha256sum" false ok, fs)]
  if !ok then
    { events := evs1, exit := 1 }
  else
    -- lines 87-93: extract the source tree unless already present
    if fs.dirExists pySrcDir then
      cpythonConfigure env
        (evs1 ++ [(Act.log ("[cpython] Using existing " ++ pySrcDir), fs)]) fs
    else
      match fs.files.lookup pyTarballPath with
      | some (Content.complete d) =>
        let fse := (fs.removeTree pySrcDir).extractTar env toolDir d
        cpythonConfigure env (evs1 ++ [(Act.unpack pyTarballPath toolDir, fse)]) fse
      | _ =>
        { events := evs1 ++ [(Act.errorExit "tar: unreadable archive", fs)], exit := 1 }

/-- Lines 70-144 of `build_cpython.sh`: the CPython-headers section, which runs
only when `py-headers-3.12` does not already exist: fetch the source tarball
unless present, then verify/extract/configure/copy headers. -/
def cpythonPySection (env : Env) (evs : List (Act × FS)) (fs : FS) : RunResult :=
  -- lines 71-144 are guarded by `[ ! -d "$HEADERS_OUT" ]`
  if fs.dirExists pyHeadersDir then
    { events := evs, exit := 0 }
  else
    -- lines 77-82: download the CPython source unless already present
    if fs.fileExists pyTarballPath then
      cpythonPyVerify env
        (evs ++ [(Act.log ("[cpython] Using existing " ++ pyTarballPath), fs)]) fs
    else
      match env.network.lookup pyUrl with
      | some d =>
        let fsd := fs.setFile pyTarballPath (Content.complete d)
        cpythonPyVerify env (evs ++ [(Act.download pyUrl pyTarballPath true, fsd)]) fsd
      | none =>
        { events := evs ++ [(Act.download pyUrl pyTarballPath false, fs)], exit := 1 }

/-- Lines 55-68 of `build_cpython.sh`: the extracted toolchain's sanity checks
(executable `clang`, compiler-rt builtins), then the CPython headers
section. -/
def cpythonSdkChecks (env : Env) (evs : List (Act × FS)) (fs : FS) : RunResult :=
  -- lines 55-59: clang must be executable
  if !(fs.isExec (wasiDir ++ "/bin/clang")) then
    { events := evs ++
        [(Act.errorExit ("Error: clang not found at " ++ wasiDir ++ "/bin/clang"), fs)],
      exit := 1 }
  else
    -- lines 61-68: compiler-rt builtins must exist
    let rtDir := env.clangResourceDir ++ "/lib/wasm32-unknown-wasi"
    if !(fs.fileExists (rtDir ++ "/libclang_rt.builtins.a")) then
      { events := evs ++
          [(Act.errorExit ("Error: compiler-rt builtins not found at: " ++ rtDir ++
              "/libclang_rt.builtins.a"), fs)],
        exit := 1 }
    else
      cpythonPySection env evs fs

/-- Lines 42-53 of `build_cpython.sh`: verify the SDK tarball (with
`--ignore-missing`), then extract it unless the versioned install directory
already exists, normalizing the version-suffixed top-level name with `mv`. -/
def cpythonSdkVerify (env : Env) (platform : String) (evs : List (Act × FS)) (fs : FS) :
    RunResult :=
  -- lines 42-43: shasum -a 256 -c wasi-sdk.sha256sum --ignore-missing
  let ok := shasumCheck true fs toolDir env.wasiSums
  let evs1 := evs ++ [(Act.verify "wasi-sdk.sha256sum" true ok, fs)]
  if !ok then
    { events := evs1, exit := 1 }
  else
    -- lines 45-53: extract unless already extracted
    if fs.dirExists wasiDir then
      cpythonSdkChecks env
        (evs1 ++ [(Act.log ("[wasi-sdk] Using existing " ++ wasiDir), fs)]) fs
    else
      match fs.files.lookup (wasiTarballPath platform) with
      | some (Content.complete d) =>
        let fse := (fs.removeTree wasiDir).extractTar env toolDir d
        -- mv "${WASI_DIR}-${PLATFORM}" "$WASI_DIR" fails if absent
        if fse.dirExists (wasiDir ++ "-" ++ platform) then
          cpythonSdkChecks env
            (evs1 ++
              [(Act.unpack (wasiTarballPath platform) toolDir, fse),
               (Act.move (wasiDir ++ "-" ++ platform) wasiDir,
                 fse.renameTree (wasiDir ++ "-" ++ platform) wasiDir)])
            (fse.renameTree (wasiDir ++ "-" ++ platform) wasiDir)
        else
          { events := evs1 ++ [(Act.errorExit "mv failed on the wasi-sdk tree", fse)], exit := 1 }
      | _ =>
        { events := evs1 ++ [(Act.errorExit "tar: unreadable archive", fs)], exit := 1 }

/-- Script `build_cpython.sh`: platform detection, WASI SDK fetch, then verification,
extraction, sanity checks and the CPython headers section. -/
def runCpython (env : Env) (fs0 : FS) : RunResult :=
  -- line 10: mkdir -p "$TOOL_DIR"
  let fs1 := fs0.addDir toolDir
  -- lines 15-30: platform detection
  match resolvePlatform env.ostype env.unameArch with
  | PlatformResult.unsupported os =>
    { events := [(Act.errorExit ("Unsupported OS: " ++ os), fs1)], exit := 1 }
  | PlatformResult.ok platform =>
    let evP : Act × FS := (Act.log ("Platform Detected: " ++ platform), fs1)
    let tarball := wasiTarballPath platform
    -- lines 34-40: download the SDK unless the tarball is already present
    if fs1.fileExists tarball then
      cpythonSdkVerify env platform
        [evP, (Act.log ("[wasi-sdk] Using existing " ++ tarball), fs1)] fs1
    else
      match env.network.lookup (wasiUrl platform) with
      | some d =>
        let fsd := fs1.setFile tarball (Content.complete d)
        cpythonSdkVerify env platform
          [evP, (Act.download (wasiUrl platform) tarball true, fsd)] fsd
      | none =>
        { events := [evP, (Act.download (wasiUrl platform) tarball false, fs1)], exit := 1 }

-- Trace predicates

/-- Compile, link and build-configuration actions: the "compile/link work" of
a stage. -/
def isCompileWork : Act → Bool
  | Act.compile .. => true
  | Act.link .. => true
  | Act.configure .. => true
  | _ => false

/-- Network actions (any `curl` invocation, successful or not). -/
def isNetworkWork : Act → Bool
  | Act.download .. => true
  | _ => false

def isFailedVerify : Act → Bool
  | Act.verify _ _ false => true
  | _ => false

def isVerifyOf (sumFile : String) : Act → Bool
  | Act.verify f _ _ => f == sumFile
  | _ => false

def isUnpack : Act → Bool
  | Act.unpack .. => true
  | _ => false

def isExtractWork : Act → Bool
  | Act.unpack .. => true
  | Act.move .. => true
  | _ => false

def compileWorkCount (evs : List Act) : Nat :=
  (evs.filter isCompileWork).length

def networkCount (evs : List Act) : Nat :=
  (evs.filter isNetworkWork).length

def unpackCount (evs : List Act) : Nat :=
  (evs.filter isUnpack).length

-- A concrete example world: the digests 11-14 stand for the xxhash sdist, the
-- msgspec archive, the wasi-sdk tarball and the CPython source tarball.

def exRtDir : String := "_tooling/wasi-sdk-27.0/lib/clang/27/lib/wasm32-unknown-wasi"

def exEnv : Env where
  ostype := "linux-gnu"
  unameArch := "x86_64"
  xxhashVer := "3.4.1"
  msgspecVer := "0.19.0"
  network :=
    [(xxhashArchiveUrl "3.4.1", 11), (msgspecArchiveUrl "0.19.0", 12),
     (wasiUrl "x86_64-linux", 13), (pyUrl, 14)]
  xxhashSums := [("xxhash-3.4.1-pypi.tar.gz", 11)]
  msgspecSums := [("msgspec-0.19.0-github.tar.gz", 12)]
  wasiSums := [("wasi-sdk-27.0-x86_64-linux.tar.gz", 13), ("wasi-sdk-27.0-arm64-macos.tar.gz", 99)]
  pythonSums := [("Python-3.12.0.tgz", 14)]
  clangResourceDir := "_tooling/wasi-sdk-27.0/lib/clang/27"
  tarDirs := fun d =>
    if d == 11 then ["xxhash-3.4.1", "xxhash-3.4.1/xxhash", "xxhash-3.4.1/src",
                     "xxhash-3.4.1/deps", "xxhash-3.4.1/deps/xxhash"]
    else if d == 12 then ["msgspec-0.19.0", "msgspec-0.19.0/msgspec"]
    else if d == 13 then ["wasi-sdk-27.0-x86_64-linux", "wasi-sdk-27.0-x86_64-linux/bin"]
    else if d == 14 then ["Python-3.12.0", "Python-3.12.0/Include"]
    else []
  tarFiles := fun d =>
    if d == 11 then [("xxhash-3.4.1/xxhash/__init__.py", 1),
                     ("xxhash-3.4.1/xxhash/py.typed", 2),
                     ("xxhash-3.4.1/src/_xxhash.c", 3),
                     ("xxhash-3.4.1/deps/xxhash/xxhash.c", 4)]
    else if d == 12 then [("msgspec-0.19.0/msgspec/__init__.py", 5),
                          ("msgspec-0.19.0/msgspec/_core.c", 6)]
    else if d == 13 then
      [("wasi-sdk-27.0-x86_64-linux/lib/clang/27/lib/wasm32-unknown-wasi/libclang_rt.builtins.a", 9)]
    else if d == 14 then [("Python-3.12.0/Include/Python.h", 7),
                          ("Python-3.12.0/pyconfig.h", 8)]
    else []
  tarExecs := fun d =>
    if d == 13 then ["wasi-sdk-27.0-x86_64-linux/bin/clang"] else []

/-- A state in which the toolchain and headers are provisioned and no
extension has been built yet. -/
def exFS : FS where
  files := []
  dirs := [toolDir, pyHeadersDir, wasiDir, exRtDir]
  execs := [wasiDir ++ "/bin/clang"]

/-- A provisioned state lacking only the Python header bundle. -/
def exFSNoHeaders : FS where
  files := []
  dirs := [toolDir, wasiDir, exRtDir]
  execs := [wasiDir ++ "/bin/clang"]

/-- The empty tool-cache. -/
def exEmptyFS : FS where
  files := []
  dirs := []
  execs := []

/-- Tool-cache state after a first, complete `build_cpython.sh` run. -/
def exFSAfterCpython : FS :=
  finalFS exEmptyFS (runCpython exEnv exEmptyFS)

/-- An extension-stage action is rename-free and only ever starts writing a
tarball directly at the stage's final cached path `outTar`. -/
def noRenameToFinal (outTar : String) : Act → Bool
  | Act.move _ _ => false
  | Act.tarBegin _ out => out == outTar
  | _ => true

def hasFailedVerify (evs : List Act) : Bool :=
  evs.any isFailedVerify

/-- The integrity gate on one run: if any checksum verification in the trace
failed, the run performed zero compile/link/configure work and exited 1. -/
def integrityGateOn (r : RunResult) : Prop :=
  hasFailedVerify (traceOf r) = true →
    compileWorkCount (traceOf r) = 0 ∧ r.exit = 1

/-- Environment whose checksum files pin digests that do not match the served
archives: every verification fails. -/
def exEnvBadSums : Env :=
  { exEnv with
    xxhashSums := [("xxhash-3.4.1-pypi.tar.gz", 1111)]
    msgspecSums := [("msgspec-0.19.0-github.tar.gz", 1212)]
    wasiSums := [("wasi-sdk-27.0-x86_64-linux.tar.gz", 1313)]
    pythonSums := [("Python-3.12.0.tgz", 1414)] }

/-- A tool-cache state in which both extension tarballs are already built. -/
def exFSBuilt : FS where
  files := [(xxhashOutTar, Content.complete 21), (msgspecOutTar, Content.complete 22)]
  dirs := [toolDir]
  execs := []

/-- The string `sub` occurs as a contiguous substring of `s`. -/
def strContains (s sub : String) : Bool :=
  decide (sub.data <:+: s.data)

/-- A link action is one `wasm-ld` invocation. -/
def isLink : Act → Bool
  | Act.link .. => true
  | _ => false

/-- A link action exports some `PyInit_` entry symbol (non-link actions pass
vacuously). -/
def linkExportsPyInit : Act → Bool
  | Act.link _ flags _ => flags.any (fun f => strIsPrefixOf "--export=PyInit" f)
  | _ => true

/-- Every link action in a trace uses exactly the given flag list. -/
def linkFlagsAre (flags : List String) : Act → Bool
  | Act.link _ fl _ => fl == flags
  | _ => true

/-- Every link action in a trace writes the given output path. -/
def linkOutIs (path : String) : Act → Bool
  | Act.link out _ _ => out == path
  | _ => true

/-- Each verification action carries `--ignore-missing` exactly when it checks
the toolchain-SDK checksum file. -/
def verifyFlagOk : Act → Bool
  | Act.verify f im _ => im == (f == "wasi-sdk.sha256sum")
  | _ => true

/-- Checksum file lacking any entry for the current platform's pinned SDK
tarball; it only lists another platform's tarball. -/
def exEnvNoEntry : Env :=
  { exEnv with
    wasiSums := [("wasi-sdk-27.0-arm64-macos.tar.gz", 99)]
    tarDirs := fun d => if d == 1313 then exEnv.tarDirs 13 else exEnv.tarDirs d
    tarFiles := fun d => if d == 1313 then exEnv.tarFiles 13 else exEnv.tarFiles d
    tarExecs := fun d => if d == 1313 then exEnv.tarExecs 13 else exEnv.tarExecs d }

/-- Tool-cache holding the current platform's SDK tarball (unverifiable:
digest 1313 is listed nowhere) next to a stale tarball of another platform
that is listed and matches. -/
def exFSStale : FS where
  files := [(wasiTarballPath "x86_64-linux", Content.complete 1313),
            ("_tooling/wasi-sdk-27.0-arm64-macos.tar.gz", Content.complete 99)]
  dirs := [toolDir]
  execs := []

def isPassedVerifyOf (sumFile : String) : Act → Bool
  | Act.verify f _ true => f == sumFile
  | _ => false

/-- Provisioned tool-cache with corrupted cached extension archives (digests
777/778 instead of the pinned 11/12). -/
def exFSCorrupt : FS where
  files := [(xxhashArchiveFile "3.4.1", Content.complete 777),
            (msgspecArchiveFile "0.19.0", Content.complete 778)]
  dirs := [toolDir, pyHeadersDir, wasiDir, exRtDir]
  execs := [wasiDir ++ "/bin/clang"]

/-- Extracted toolchain with a corrupted cached CPython source tarball
(digest 779 instead of the pinned 14) and no header bundle yet. -/
def exFSCorruptPy : FS where
  files := [(wasiTarballPath "x86_64-linux", Content.complete 13),
            (pyTarballPath, Content.complete 779),
            (exRtDir ++ "/libclang_rt.builtins.a", Content.complete 9)]
  dirs := [toolDir, wasiDir]
  execs := [wasiDir ++ "/bin/clang"]

-- Small filesystem lemmas shared by the claim proofs

theorem files_addDir (fs : FS) (d : String) : (fs.addDir d).files = fs.files := rfl

theorem execs_addDir (fs : FS) (d : String) : (fs.addDir d).execs = fs.execs := rfl

theorem fileExists_addDir (fs : FS) (d p : String) :
    (fs.addDir d).fileExists p = fs.fileExists p := rfl

theorem isExec_addDir (fs : FS) (d p : String) :
    (fs.addDir d).isExec p = fs.isExec p := rfl

theorem dirExists_addDir_of (fs : FS) (d p : String) (h : fs.dirExists p = true) :
    (fs.addDir d).dirExists p = true := by
  simp only [FS.dirExists, FS.addDir, List.contains_cons] at *
  exact Bool.or_eq_true_iff.mpr (Or.inr h)

theorem lookup_filter_of_pred (l : List (String × Content)) (p : String)
    (f : String × Content → Bool) (h : ∀ c, f (p, c) = true) :
    (l.filter f).lookup p = l.lookup p := by
  induction l with
  | nil => rfl
  | cons e rest ih =>
    obtain ⟨k, v⟩ := e
    by_cases hp : p = k
    · subst hp
      have hf : f (p, v) = true := h v
      simp [List.filter_cons, hf, List.lookup]
    · have hbeq : (p == k) = false := beq_eq_false_iff_ne.mpr hp
      cases hf : f (k, v) <;> simp [List.filter_cons, hf, List.lookup, hbeq, ih]

theorem lookup_removeTree (fs : FS) (root p : String) (h : underTree root p = false) :
    (fs.removeTree root).files.lookup p = fs.files.lookup p := by
  unfold FS.removeTree
  exact lookup_filter_of_pred fs.files p _ (fun c => by simp [h])

theorem fileExists_removeTree (fs : FS) (root p : String) (h : underTree root p = false) :
    (fs.removeTree root).fileExists p = fs.fileExists p := by
  unfold FS.fileExists
  rw [lookup_removeTree fs root p h]

/-- C3, as stated: the four supported OS/architecture pairs resolve to the four
platform tags.  The bash encodings of the OS families are `$OSTYPE` values:
`linux-gnu` for Linux, `darwin*` for Darwin. -/
theorem platform_four_inputs :
    resolvePlatform "linux-gnu" "x86_64" = PlatformResult.ok "x86_64-linux" ∧
    resolvePlatform "linux-gnu" "aarch64" = PlatformResult.ok "arm64-linux" ∧
    resolvePlatform "darwin23" "x86_64" = PlatformResult.ok "x86_64-macos" ∧
    resolvePlatform "darwin23" "arm64" = PlatformResult.ok "arm64-macos" := by
  refine ⟨?_, ?_, ?_, ?_⟩ <;> decide

/-- C3 counterexample: an input outside the four supported pairs — Linux with
an unrecognized architecture — does NOT fail with an unsupported-platform
error; the script only inspects `$OSTYPE` and passes the architecture string
through, producing the tag `riscv64-linux`. -/
theorem C3_counterexample :
    resolvePlatform "linux-gnu" "riscv64" = PlatformResult.ok "riscv64-linux" ∧
    ∀ os, resolvePlatform "linux-gnu" "riscv64" ≠ PlatformResult.unsupported os := by
  constructor
  · decide
  · intro os h
    have : PlatformResult.ok "riscv64-linux" = PlatformResult.unsupported os := by
      rw [← h]; decide
    exact PlatformResult.noConfusion this

/-- C3 amended: the four listed inputs map to the four listed tags, and any
`$OSTYPE` that is neither `linux-gnu*` nor `darwin*` fails with the
unsupported-OS error; but an unrecognized architecture under a supported OS is
not rejected — it flows into the platform tag unchecked. -/
theorem C3_platform_resolution :
    (resolvePlatform "linux-gnu" "x86_64" = PlatformResult.ok "x86_64-linux" ∧
     resolvePlatform "linux-gnu" "aarch64" = PlatformResult.ok "arm64-linux" ∧
     resolvePlatform "darwin23" "x86_64" = PlatformResult.ok "x86_64-macos" ∧
     resolvePlatform "darwin23" "arm64" = PlatformResult.ok "arm64-macos") ∧
    (∀ ostype arch : String,
      strIsPrefixOf "linux-gnu" ostype = false →
      strIsPrefixOf "darwin" ostype = false →
      resolvePlatform ostype arch = PlatformResult.unsupported ostype) ∧
    (∀ arch : String, strIsPrefixOf "linux-gnu" "linux-gnu" = true ∧
      resolvePlatform "linux-gnu" arch =
        PlatformResult.ok ((if arch == "aarch64" then "arm64" else arch) ++ "-linux")) := by
  refine ⟨⟨by decide, by decide, by decide, by decide⟩, ?_, ?_⟩
  · intro ostype arch h1 h2
    simp [resolvePlatform, h1, h2]
  · intro arch
    refine ⟨by decide, ?_⟩
    have h : strIsPrefixOf "linux-gnu" "linux-gnu" = true := by decide
    simp [resolvePlatform, h]

/-- Witness for the amended C3 theorem at a concrete unsupported OSTYPE. -/
theorem C3_platform_resolution_witness :
    resolvePlatform "msys" "x86_64" = PlatformResult.unsupported "msys" :=
  C3_platform_resolution.2.1 "msys" "x86_64" (by decide) (by decide)


/-- From the checksum step onward, the xxhash stage performs no rename and
starts tarball writes only at the final cached path. -/
theorem xxhashFromVerify_noRename (env : Env) (evs : List (Act × FS)) (fs : FS)
    (h : (evs.map Prod.fst).all (noRenameToFinal xxhashOutTar) = true) :
    (traceOf (xxhashFromVerify env evs fs)).all (noRenameToFinal xxhashOutTar) = true := by
  unfold xxhashFromVerify
  dsimp only
  repeat' split
  all_goals simp only [traceOf, List.map_append, List.map_cons, List.map_nil, List.all_append,
    List.all_cons, List.all_nil, h, noRenameToFinal, Bool.true_and, Bool.and_true,
    beq_self_eq_true]

/-- From the checksum step onward, the msgspec stage performs no rename and
starts tarball writes only at the final cached path. -/
theorem msgspecFromVerify_noRename (env : Env) (evs : List (Act × FS)) (fs : FS)
    (h : (evs.map Prod.fst).all (noRenameToFinal msgspecOutTar) = true) :
    (traceOf (msgspecFromVerify env evs fs)).all (noRenameToFinal msgspecOutTar) = true := by
  unfold msgspecFromVerify
  dsimp only
  repeat' split
  all_goals simp only [traceOf, List.map_append, List.map_cons, List.map_nil, List.all_append,
    List.all_cons, List.all_nil, h, noRenameToFinal, Bool.true_and, Bool.and_true,
    beq_self_eq_true]

/-- C1 counterexample: in a complete example run of the xxhash stage, killing
the run right after its 10th external action — during `tar -czf "$OUT_TAR"`,
which writes directly to the final cached path — leaves a partially written
file at the final artifact path, and a rerun's existence-based cache check
then treats it as a complete artifact: the rerun logs a cache hit, exits 0,
and leaves the truncated file in place. -/
theorem C1_counterexample :
    (crashFS exFS (runXxhash exEnv exFS) 10).files.lookup xxhashOutTar =
      some Content.incomplete ∧
    traceOf (runXxhash exEnv (crashFS exFS (runXxhash exEnv exFS) 10)) =
      [Act.log "[xxhash] Cache hit: skipping build"] ∧
    (runXxhash exEnv (crashFS exFS (runXxhash exEnv exFS) 10)).exit = 0 ∧
    (finalFS (crashFS exFS (runXxhash exEnv exFS) 10)
        (runXxhash exEnv (crashFS exFS (runXxhash exEnv exFS) 10))).files.lookup xxhashOutTar =
      some Content.incomplete := by
  refine ⟨?_, ?_, ?_, ?_⟩ <;> decide

/-- C1 amended: the package tree is assembled in a temporary build subtree,
but the final tarball is written by `tar -czf` directly at its final cached
path with no rename step.  Hence (i) in the example runs, a crash anywhere
except during the tar write leaves no partial file at the final path, (ii) a
crash during the tar write does, and (iii) in every run of either extension
stage, no rename/move is performed and every tarball write starts directly at
the stage's final cached path. -/
theorem C1_tarball_write :
    (∀ k, k ≤ 11 → k ≠ 10 →
      (crashFS exFS (runXxhash exEnv exFS) k).files.lookup xxhashOutTar ≠
        some Content.incomplete) ∧
    (crashFS exFS (runXxhash exEnv exFS) 10).files.lookup xxhashOutTar =
      some Content.incomplete ∧
    (∀ k, k ≤ 10 → k ≠ 9 →
      (crashFS exFS (runMsgspec exEnv exFS) k).files.lookup msgspecOutTar ≠
        some Content.incomplete) ∧
    (crashFS exFS (runMsgspec exEnv exFS) 9).files.lookup msgspecOutTar =
      some Content.incomplete ∧
    (∀ env fs, (traceOf (runXxhash env fs)).all (noRenameToFinal xxhashOutTar) = true) ∧
    (∀ env fs, (traceOf (runMsgspec env fs)).all (noRenameToFinal msgspecOutTar) = true) := by
  refine ⟨?_, by decide, ?_, by decide, ?_, ?_⟩
  · intro k hk hne
    interval_cases k
    all_goals (try exact absurd rfl hne)
    all_goals decide
  · intro k hk hne
    interval_cases k
    all_goals (try exact absurd rfl hne)
    all_goals decide
  · intro env fs
    unfold runXxhash
    dsimp only
    repeat' split
    all_goals first
      | exact xxhashFromVerify_noRename _ _ _ (by simp [noRenameToFinal])
      | simp [traceOf, noRenameToFinal]
  · intro env fs
    unfold runMsgspec
    dsimp only
    repeat' split
    all_goals first
      | exact msgspecFromVerify_noRename _ _ _ (by simp [noRenameToFinal])
      | simp [traceOf, noRenameToFinal]

/-- Witness for `C1_tarball_write` at concrete crash points. -/
theorem C1_tarball_write_witness :
    (crashFS exFS (runXxhash exEnv exFS) 3).files.lookup xxhashOutTar ≠
      some Content.incomplete ∧
    (crashFS exFS (runMsgspec exEnv exFS) 3).files.lookup msgspecOutTar ≠
      some Content.incomplete :=
  ⟨C1_tarball_write.1 3 (by decide) (by decide),
   C1_tarball_write.2.2.1 3 (by decide) (by decide)⟩



/-- Integrity gate for the tail of the xxhash stage, given a prefix of events
containing no failed verification and no compile/link work. -/
theorem xxhashFromVerify_integrity (env : Env) (evs : List (Act × FS)) (fs : FS)
    (h1 : (evs.map Prod.fst).any isFailedVerify = false)
    (h2 : (evs.map Prod.fst).filter isCompileWork = []) :
    integrityGateOn (xxhashFromVerify env evs fs) := by
  unfold integrityGateOn xxhashFromVerify
  dsimp only
  repeat' split
  all_goals intro hfail
  all_goals simp_all only [traceOf, List.map_append, List.map_cons, List.map_nil,
    hasFailedVerify, List.any_append, List.any_cons, List.any_nil,
    compileWorkCount, List.filter_append, List.filter_cons, List.filter_nil,
    List.length_append, List.length_nil, List.length_cons,
    isFailedVerify, isCompileWork, Bool.not_eq_true', Bool.not_eq_false,
    Bool.false_or, Bool.or_false, Bool.or_self, Bool.false_eq_true, Bool.true_eq_false,
    if_true, if_false, Nat.add_zero, Nat.zero_add, and_self]

/-- Integrity gate for the tail of the msgspec stage. -/
theorem msgspecFromVerify_integrity (env : Env) (evs : List (Act × FS)) (fs : FS)
    (h1 : (evs.map Prod.fst).any isFailedVerify = false)
    (h2 : (evs.map Prod.fst).filter isCompileWork = []) :
    integrityGateOn (msgspecFromVerify env evs fs) := by
  unfold integrityGateOn msgspecFromVerify
  dsimp only
  repeat' split
  all_goals intro hfail
  all_goals simp_all only [traceOf, List.map_append, List.map_cons, List.map_nil,
    hasFailedVerify, List.any_append, List.any_cons, List.any_nil,
    compileWorkCount, List.filter_append, List.filter_cons, List.filter_nil,
    List.length_append, List.length_nil, List.length_cons,
    isFailedVerify, isCompileWork, Bool.not_eq_true', Bool.not_eq_false,
    Bool.false_or, Bool.or_false, Bool.or_self, Bool.false_eq_true, Bool.true_eq_false,
    if_true, if_false, Nat.add_zero, Nat.zero_add, and_self]

/-- Integrity gate for the configure/copy tail of the headers section: it
contains no verification of its own, so a clean prefix stays clean. -/
theorem cpythonConfigure_integrity (env : Env) (evs : List (Act × FS)) (fs : FS)
    (h1 : (evs.map Prod.fst).any isFailedVerify = false) :
    integrityGateOn (cpythonConfigure env evs fs) := by
  unfold integrityGateOn cpythonConfigure
  dsimp only
  repeat' split
  all_goals intro hfail
  all_goals simp_all only [traceOf, List.map_append, List.map_cons, List.map_nil,
    hasFailedVerify, List.any_append, List.any_cons, List.any_nil,
    isFailedVerify, Bool.false_or, Bool.or_false, Bool.or_self, Bool.false_eq_true]

/-- Integrity gate for the verify/extract part of the headers section. -/
theorem cpythonPyVerify_integrity (env : Env) (evs : List (Act × FS)) (fs : FS)
    (h1 : (evs.map Prod.fst).any isFailedVerify = false)
    (h2 : (evs.map Prod.fst).filter isCompileWork = []) :
    integrityGateOn (cpythonPyVerify env evs fs) := by
  unfold cpythonPyVerify
  dsimp only
  repeat' split
  all_goals first
    | (exact cpythonConfigure_integrity _ _ _
        (by simp_all [isFailedVerify, Bool.not_eq_true'] <;> try assumption))
    | (intro hfail;
       simp_all only [traceOf, List.map_append, List.map_cons, List.map_nil,
         hasFailedVerify, List.any_append, List.any_cons, List.any_nil,
         compileWorkCount, List.filter_append, List.filter_cons, List.filter_nil,
         List.length_append, List.length_nil, List.length_cons,
         isFailedVerify, isCompileWork, Bool.not_eq_true', Bool.not_eq_false,
         Bool.false_or, Bool.or_false, Bool.or_self, Bool.false_eq_true, Bool.true_eq_false,
         if_true, if_false, Nat.add_zero, Nat.zero_add, and_self])

/-- Integrity gate for the CPython-headers section. -/
theorem cpythonPySection_integrity (env : Env) (evs : List (Act × FS)) (fs : FS)
    (h1 : (evs.map Prod.fst).any isFailedVerify = false)
    (h2 : (evs.map Prod.fst).filter isCompileWork = []) :
    integrityGateOn (cpythonPySection env evs fs) := by
  unfold cpythonPySection
  dsimp only
  repeat' split
  all_goals first
    | (exact cpythonPyVerify_integrity _ _ _
        (by simp_all [isFailedVerify] <;> try assumption)
        (by simp_all [isCompileWork] <;> try assumption))
    | (intro hfail;
       simp_all only [traceOf, List.map_append, List.map_cons, List.map_nil,
         hasFailedVerify, List.any_append, List.any_cons, List.any_nil,
         compileWorkCount, List.filter_append, List.filter_cons, List.filter_nil,
         List.length_append, List.length_nil, List.length_cons,
         isFailedVerify, isCompileWork, Bool.false_or, Bool.or_false, Bool.or_self,
         Bool.false_eq_true, Nat.add_zero, Nat.zero_add, and_self])

/-- Integrity gate for the toolchain sanity checks and everything after. -/
theorem cpythonSdkChecks_integrity (env : Env) (evs : List (Act × FS)) (fs : FS)
    (h1 : (evs.map Prod.fst).any isFailedVerify = false)
    (h2 : (evs.map Prod.fst).filter isCompileWork = []) :
    integrityGateOn (cpythonSdkChecks env evs fs) := by
  unfold cpythonSdkChecks
  dsimp only
  repeat' split
  all_goals first
    | (exact cpythonPySection_integrity _ _ _
        (by simp_all [isFailedVerify] <;> try assumption)
        (by simp_all [isCompileWork] <;> try assumption))
    | (intro hfail;
       simp_all only [traceOf, List.map_append, List.map_cons, List.map_nil,
         hasFailedVerify, List.any_append, List.any_cons, List.any_nil,
         isFailedVerify, Bool.false_or, Bool.or_false, Bool.or_self, Bool.false_eq_true])

/-- Integrity gate for the SDK verification/extraction and everything after. -/
theorem cpythonSdkVerify_integrity (env : Env) (platform : String)
    (evs : List (Act × FS)) (fs : FS)
    (h1 : (evs.map Prod.fst).any isFailedVerify = false)
    (h2 : (evs.map Prod.fst).filter isCompileWork = []) :
    integrityGateOn (cpythonSdkVerify env platform evs fs) := by
  unfold cpythonSdkVerify
  dsimp only
  repeat' split
  all_goals first
    | (exact cpythonSdkChecks_integrity _ _ _
        (by simp_all [isFailedVerify, Bool.not_eq_true'] <;> try assumption)
        (by simp_all [isCompileWork] <;> try assumption))
    | (intro hfail;
       simp_all only [traceOf, List.map_append, List.map_cons, List.map_nil,
         hasFailedVerify, List.any_append, List.any_cons, List.any_nil,
         compileWorkCount, List.filter_append, List.filter_cons, List.filter_nil,
         List.length_append, List.length_nil, List.length_cons,
         isFailedVerify, isCompileWork, Bool.not_eq_true', Bool.not_eq_false,
         Bool.false_or, Bool.or_false, Bool.or_self, Bool.false_eq_true, Bool.true_eq_false,
         if_true, if_false, Nat.add_zero, Nat.zero_add, and_self])

/-- C2: in every run of every stage that fetches an archive, a failed checksum
verification means the stage performed zero compile/link/configure work and
exited 1 — the stage aborts at the mismatch, before any compile or link step,
and never proceeds with an unverified artifact. -/
theorem C2_integrity_gate :
    (∀ env fs, integrityGateOn (runXxhash env fs)) ∧
    (∀ env fs, integrityGateOn (runMsgspec env fs)) ∧
    (∀ env fs, integrityGateOn (runCpython env fs)) := by
  refine ⟨?_, ?_, ?_⟩
  · intro env fs
    unfold runXxhash
    dsimp only
    repeat' split
    all_goals first
      | exact xxhashFromVerify_integrity _ _ _ (by simp [isFailedVerify]) (by simp [isCompileWork])
      | (intro hfail; simp_all [traceOf, hasFailedVerify, isFailedVerify])
  · intro env fs
    unfold runMsgspec
    dsimp only
    repeat' split
    all_goals first
      | exact msgspecFromVerify_integrity _ _ _ (by simp [isFailedVerify]) (by simp [isCompileWork])
      | (intro hfail; simp_all [traceOf, hasFailedVerify, isFailedVerify])
  · intro env fs
    unfold runCpython
    dsimp only
    repeat' split
    all_goals first
      | (exact cpythonSdkVerify_integrity _ _ _ _
          (by simp [isFailedVerify]) (by simp [isCompileWork]))
      | (intro hfail; simp_all [traceOf, hasFailedVerify, isFailedVerify])


/-- Witness for C2 on concrete corrupted-checksum runs of all three stages. -/
theorem C2_integrity_gate_witness :
    (compileWorkCount (traceOf (runXxhash exEnvBadSums exFS)) = 0 ∧
      (runXxhash exEnvBadSums exFS).exit = 1) ∧
    (compileWorkCount (traceOf (runMsgspec exEnvBadSums exFS)) = 0 ∧
      (runMsgspec exEnvBadSums exFS).exit = 1) ∧
    (compileWorkCount (traceOf (runCpython exEnvBadSums exEmptyFS)) = 0 ∧
      (runCpython exEnvBadSums exEmptyFS).exit = 1) :=
  ⟨C2_integrity_gate.1 exEnvBadSums exFS (by decide),
   C2_integrity_gate.2.1 exEnvBadSums exFS (by decide),
   C2_integrity_gate.2.2 exEnvBadSums exEmptyFS (by decide)⟩

/-- C4: when the stage's final output tarball already exists, a rerun of
either extension-build stage performs no network, compile or link work — its
entire trace is the cache-hit log message, it exits 0 immediately at the
output-existence check, and the filesystem's files (in particular the existing
artifact) are left byte-identical. -/
theorem C4_cache_hit (env : Env) (fs : FS) :
    (fs.fileExists xxhashOutTar = true →
      traceOf (runXxhash env fs) = [Act.log "[xxhash] Cache hit: skipping build"] ∧
      (runXxhash env fs).exit = 0 ∧
      (finalFS fs (runXxhash env fs)).files = fs.files ∧
      networkCount (traceOf (runXxhash env fs)) = 0 ∧
      compileWorkCount (traceOf (runXxhash env fs)) = 0) ∧
    (fs.fileExists msgspecOutTar = true →
      traceOf (runMsgspec env fs) = [Act.log "[msgspec] Cache hit: skipping build"] ∧
      (runMsgspec env fs).exit = 0 ∧
      (finalFS fs (runMsgspec env fs)).files = fs.files ∧
      networkCount (traceOf (runMsgspec env fs)) = 0 ∧
      compileWorkCount (traceOf (runMsgspec env fs)) = 0) := by
  constructor
  · intro h
    unfold runXxhash
    dsimp only
    rw [fileExists_addDir] at *
    simp [h, traceOf, finalFS, networkCount, compileWorkCount, isNetworkWork, isCompileWork,
      FS.addDir]
  · intro h
    unfold runMsgspec
    dsimp only
    rw [fileExists_addDir] at *
    simp [h, traceOf, finalFS, networkCount, compileWorkCount, isNetworkWork, isCompileWork,
      FS.addDir]


/-- Witness for C4: concrete cache-hit reruns of both extension stages. -/
theorem C4_cache_hit_witness :
    (runXxhash exEnv exFSBuilt).exit = 0 ∧ (runMsgspec exEnv exFSBuilt).exit = 0 :=
  ⟨((C4_cache_hit exEnv exFSBuilt).1 (by decide)).2.1,
   ((C4_cache_hit exEnv exFSBuilt).2 (by decide)).2.1⟩


/-- C7: if the runtime header bundle `py-headers-3.12` is absent when an
extension-build stage actually runs (no cache hit, toolchain present), the
stage fails before invoking the compiler — zero compile/link actions — with a
prerequisite error message that names `build_cpython.sh`, the
RuntimeCrossBuilder stage, rather than a compiler error. -/
theorem C7_missing_headers (env : Env) (fs : FS) :
    (fs.fileExists xxhashOutTar = false →
      fs.isExec (wasiDir ++ "/bin/clang") = true →
      fs.dirExists pyHeadersDir = false →
      traceOf (runXxhash env fs) =
        [Act.errorExit "[xxhash] Error: Python 3.12 headers not found; run build_cpython.sh first"] ∧
      (runXxhash env fs).exit = 1 ∧
      compileWorkCount (traceOf (runXxhash env fs)) = 0 ∧
      strContains "[xxhash] Error: Python 3.12 headers not found; run build_cpython.sh first"
        "build_cpython.sh" = true) ∧
    (fs.fileExists msgspecOutTar = false →
      fs.isExec (wasiDir ++ "/bin/clang") = true →
      fs.dirExists pyHeadersDir = false →
      traceOf (runMsgspec env fs) =
        [Act.errorExit "[msgspec] Error: Python 3.12 headers not found; run build_cpython.sh first"] ∧
      (runMsgspec env fs).exit = 1 ∧
      compileWorkCount (traceOf (runMsgspec env fs)) = 0 ∧
      strContains "[msgspec] Error: Python 3.12 headers not found; run build_cpython.sh first"
        "build_cpython.sh" = true) := by
  have hne : (pyHeadersDir == toolDir) = false := by decide
  constructor
  · intro h1 h2 h3
    unfold runXxhash
    dsimp only
    rw [fileExists_addDir, isExec_addDir] at *
    have hdir : (fs.addDir toolDir).dirExists pyHeadersDir = false := by
      simp [FS.dirExists, FS.addDir, List.contains_cons] at *
      exact ⟨by decide, h3⟩
    simp [h1, h2, hdir, traceOf, compileWorkCount, isCompileWork]
    decide
  · intro h1 h2 h3
    unfold runMsgspec
    dsimp only
    rw [fileExists_addDir, isExec_addDir] at *
    have hdir : (fs.addDir toolDir).dirExists pyHeadersDir = false := by
      simp [FS.dirExists, FS.addDir, List.contains_cons] at *
      exact ⟨by decide, h3⟩
    simp [h1, h2, hdir, traceOf, compileWorkCount, isCompileWork]
    decide

/-- Witness for C7: concrete runs against a tool-cache that has the WASI SDK
but no header bundle. -/
theorem C7_missing_headers_witness :
    (runXxhash exEnv exFSNoHeaders).exit = 1 ∧ (runMsgspec exEnv exFSNoHeaders).exit = 1 :=
  ⟨((C7_missing_headers exEnv exFSNoHeaders).1 (by decide) (by decide) (by decide)).2.1,
   ((C7_missing_headers exEnv exFSNoHeaders).2 (by decide) (by decide) (by decide)).2.1⟩

/-- Rerun behavior of the toolchain sanity checks when the header bundle
exists: no network and no extraction after them, and the verification already
performed stays in the trace. -/
theorem cpythonSdkChecks_rerun (env : Env) (evs : List (Act × FS)) (fs : FS)
    (hnet : (evs.map Prod.fst).filter isNetworkWork = [])
    (hext : (evs.map Prod.fst).filter isExtractWork = [])
    (hany : (evs.map Prod.fst).any (isVerifyOf "wasi-sdk.sha256sum") = true)
    (hheaders : fs.dirExists pyHeadersDir = true) :
    networkCount (traceOf (cpythonSdkChecks env evs fs)) = 0 ∧
    (traceOf (cpythonSdkChecks env evs fs)).filter isExtractWork = [] ∧
    (traceOf (cpythonSdkChecks env evs fs)).any (isVerifyOf "wasi-sdk.sha256sum") = true := by
  unfold cpythonSdkChecks cpythonPySection
  dsimp only
  repeat' split
  all_goals simp_all only [traceOf, List.map_append, List.map_cons, List.map_nil,
    networkCount, List.filter_append, List.filter_cons, List.filter_nil,
    List.any_append, List.any_cons, List.any_nil, List.length_nil, List.length_append,
    isNetworkWork, isExtractWork, isVerifyOf, List.append_nil,
    Bool.or_false, Bool.false_or, Bool.or_true, Bool.true_or,
    Bool.false_eq_true, Bool.true_eq_false, and_self, if_true, if_false]

/-- Rerun behavior of SDK verification and everything after it, when the SDK
is already extracted and the header bundle exists: checksum verification still
runs, but nothing is downloaded or extracted. -/
theorem cpythonSdkVerify_rerun (env : Env) (platform : String)
    (evs : List (Act × FS)) (fs : FS)
    (hnet : (evs.map Prod.fst).filter isNetworkWork = [])
    (hext : (evs.map Prod.fst).filter isExtractWork = [])
    (hdir : fs.dirExists wasiDir = true)
    (hheaders : fs.dirExists pyHeadersDir = true) :
    networkCount (traceOf (cpythonSdkVerify env platform evs fs)) = 0 ∧
    (traceOf (cpythonSdkVerify env platform evs fs)).filter isExtractWork = [] ∧
    (traceOf (cpythonSdkVerify env platform evs fs)).any
      (isVerifyOf "wasi-sdk.sha256sum") = true := by
  unfold cpythonSdkVerify
  dsimp only
  repeat' split
  all_goals first
    | (exact cpythonSdkChecks_rerun _ _ _
        (by simp_all [isNetworkWork] <;> try assumption)
        (by simp_all [isExtractWork] <;> try assumption)
        (by simp [isVerifyOf])
        (by simp_all))
    | (simp_all only [traceOf, List.map_append, List.map_cons, List.map_nil,
        networkCount, List.filter_append, List.filter_cons, List.filter_nil,
        List.any_append, List.any_cons, List.any_nil, List.length_nil, List.length_append,
        isNetworkWork, isExtractWork, isVerifyOf, List.append_nil,
        Bool.or_false, Bool.false_or, Bool.or_true, Bool.true_or, beq_self_eq_true,
        Bool.false_eq_true, Bool.true_eq_false, and_self, if_true, if_false])

/-- C5 counterexample: after a complete first `build_cpython.sh` run the SDK
is extracted to its versioned install directory with an executable compiler,
yet the rerun does NOT skip checksum verification: its trace contains a
verification of `wasi-sdk.sha256sum` before it succeeds. -/
theorem C5_counterexample :
    FS.dirExists exFSAfterCpython wasiDir = true ∧
    FS.isExec exFSAfterCpython (wasiDir ++ "/bin/clang") = true ∧
    (runCpython exEnv exFSAfterCpython).exit = 0 ∧
    (traceOf (runCpython exEnv exFSAfterCpython)).any
      (isVerifyOf "wasi-sdk.sha256sum") = true := by
  refine ⟨?_, ?_, ?_, ?_⟩ <;> decide

/-- C5 amended: on a rerun where the SDK is already extracted, its tarball is
still in the tool-cache and the header bundle exists, the provisioner performs
no download and no extraction — but it always re-runs the checksum
verification of the SDK tarball before succeeding. -/
theorem C5_rerun_verifies (env : Env) (fs : FS) (platform : String) :
    resolvePlatform env.ostype env.unameArch = PlatformResult.ok platform →
    fs.fileExists (wasiTarballPath platform) = true →
    fs.dirExists wasiDir = true →
    fs.dirExists pyHeadersDir = true →
    networkCount (traceOf (runCpython env fs)) = 0 ∧
    (traceOf (runCpython env fs)).filter isExtractWork = [] ∧
    (traceOf (runCpython env fs)).any (isVerifyOf "wasi-sdk.sha256sum") = true := by
  intro hplat htar hdir hheaders
  unfold runCpython
  rw [hplat]
  dsimp only
  rw [fileExists_addDir, htar]
  simp only [if_true]
  exact cpythonSdkVerify_rerun env platform _ _
    (by simp [isNetworkWork]) (by simp [isExtractWork])
    (dirExists_addDir_of fs toolDir wasiDir hdir)
    (dirExists_addDir_of fs toolDir pyHeadersDir hheaders)

/-- Witness for the amended C5 theorem on the concrete post-first-run
state. -/
theorem C5_rerun_verifies_witness :
    networkCount (traceOf (runCpython exEnv exFSAfterCpython)) = 0 ∧
    (traceOf (runCpython exEnv exFSAfterCpython)).filter isExtractWork = [] ∧
    (traceOf (runCpython exEnv exFSAfterCpython)).any
      (isVerifyOf "wasi-sdk.sha256sum") = true :=
  C5_rerun_verifies exEnv exFSAfterCpython "x86_64-linux"
    (by decide) (by decide) (by decide) (by decide)

/-- Generic invariant transfer for the tail of the xxhash stage: a predicate
holding on the accumulated events and on every action shape the tail can emit
holds on the whole trace.  The link action is pinned to its exact output path
and flag set. -/
theorem xxhashFromVerify_all (env : Env) (P : Act → Bool)
    (evs : List (Act × FS)) (fs : FS)
    (hevs : (evs.map Prod.fst).all P = true)
    (hverify : ∀ ok, P (Act.verify "xxhash.sha256sum" false ok) = true)
    (herr : ∀ m, P (Act.errorExit m) = true)
    (hunpack : ∀ a d, P (Act.unpack a d) = true)
    (hcopy : ∀ s d, P (Act.copyTree s d) = true)
    (hcompile : ∀ s o f, P (Act.compile s o f) = true)
    (hlink : ∀ ins, P (Act.link (xxhashPkgDir ++ "/xxhash/" ++ xxhashExtName)
        (xxhashLinkFlags (env.clangResourceDir ++ "/lib/wasm32-unknown-wasi")) ins) = true)
    (hrm : ∀ p, P (Act.removePath p) = true)
    (htb : P (Act.tarBegin xxhashPkgDir xxhashOutTar) = true)
    (htf : P (Act.tarFinish xxhashPkgDir xxhashOutTar) = true) :
    (traceOf (xxhashFromVerify env evs fs)).all P = true := by
  unfold xxhashFromVerify
  dsimp only
  repeat' split
  all_goals simp_all only [traceOf, List.map_append, List.map_cons, List.map_nil,
    List.all_append, List.all_cons, List.all_nil, Bool.and_true, Bool.true_and, and_self]

/-- Generic invariant transfer for the whole xxhash stage. -/
theorem runXxhash_all (env : Env) (P : Act → Bool) (fs : FS)
    (hlog : ∀ m, P (Act.log m) = true)
    (hdl : ∀ u d ok, P (Act.download u d ok) = true)
    (hverify : ∀ ok, P (Act.verify "xxhash.sha256sum" false ok) = true)
    (herr : ∀ m, P (Act.errorExit m) = true)
    (hunpack : ∀ a d, P (Act.unpack a d) = true)
    (hcopy : ∀ s d, P (Act.copyTree s d) = true)
    (hcompile : ∀ s o f, P (Act.compile s o f) = true)
    (hlink : ∀ ins, P (Act.link (xxhashPkgDir ++ "/xxhash/" ++ xxhashExtName)
        (xxhashLinkFlags (env.clangResourceDir ++ "/lib/wasm32-unknown-wasi")) ins) = true)
    (hrm : ∀ p, P (Act.removePath p) = true)
    (htb : P (Act.tarBegin xxhashPkgDir xxhashOutTar) = true)
    (htf : P (Act.tarFinish xxhashPkgDir xxhashOutTar) = true) :
    (traceOf (runXxhash env fs)).all P = true := by
  unfold runXxhash
  dsimp only
  repeat' split
  all_goals first
    | (exact xxhashFromVerify_all env P _ _ (by simp_all) hverify herr hunpack hcopy
        hcompile hlink hrm htb htf)
    | simp_all only [traceOf, List.map_append, List.map_cons, List.map_nil,
        List.all_append, List.all_cons, List.all_nil, Bool.and_true, Bool.true_and, and_self]

/-- Generic invariant transfer for the tail of the msgspec stage. -/
theorem msgspecFromVerify_all (env : Env) (P : Act → Bool)
    (evs : List (Act × FS)) (fs : FS)
    (hevs : (evs.map Prod.fst).all P = true)
    (hverify : ∀ ok, P (Act.verify "msgspec.sha256sum" false ok) = true)
    (herr : ∀ m, P (Act.errorExit m) = true)
    (hunpack : ∀ a d, P (Act.unpack a d) = true)
    (hcopy : ∀ s d, P (Act.copyTree s d) = true)
    (hcompile : ∀ s o f, P (Act.compile s o f) = true)
    (hlink : ∀ ins, P (Act.link (msgspecPkgDir ++ "/msgspec/" ++ msgspecExtName)
        (msgspecLinkFlags (env.clangResourceDir ++ "/lib/wasm32-unknown-wasi")) ins) = true)
    (hrm : ∀ p, P (Act.removePath p) = true)
    (htb : P (Act.tarBegin msgspecPkgDir msgspecOutTar) = true)
    (htf : P (Act.tarFinish msgspecPkgDir msgspecOutTar) = true) :
    (traceOf (msgspecFromVerify env evs fs)).all P = true := by
  unfold msgspecFromVerify
  dsimp only
  repeat' split
  all_goals simp_all only [traceOf, List.map_append, List.map_cons, List.map_nil,
    List.all_append, List.all_cons, List.all_nil, Bool.and_true, Bool.true_and, and_self]

/-- Generic invariant transfer for the whole msgspec stage. -/
theorem runMsgspec_all (env : Env) (P : Act → Bool) (fs : FS)
    (hlog : ∀ m, P (Act.log m) = true)
    (hdl : ∀ u d ok, P (Act.download u d ok) = true)
    (hverify : ∀ ok, P (Act.verify "msgspec.sha256sum" false ok) = true)
    (herr : ∀ m, P (Act.errorExit m) = true)
    (hunpack : ∀ a d, P (Act.unpack a d) = true)
    (hcopy : ∀ s d, P (Act.copyTree s d) = true)
    (hcompile : ∀ s o f, P (Act.compile s o f) = true)
    (hlink : ∀ ins, P (Act.link (msgspecPkgDir ++ "/msgspec/" ++ msgspecExtName)
        (msgspecLinkFlags (env.clangResourceDir ++ "/lib/wasm32-unknown-wasi")) ins) = true)
    (hrm : ∀ p, P (Act.removePath p) = true)
    (htb : P (Act.tarBegin msgspecPkgDir msgspecOutTar) = true)
    (htf : P (Act.tarFinish msgspecPkgDir msgspecOutTar) = true) :
    (traceOf (runMsgspec env fs)).all P = true := by
  unfold runMsgspec
  dsimp only
  repeat' split
  all_goals first
    | (exact msgspecFromVerify_all env P _ _ (by simp_all) hverify herr hunpack hcopy
        hcompile hlink hrm htb htf)
    | simp_all only [traceOf, List.map_append, List.map_cons, List.map_nil,
        List.all_append, List.all_cons, List.all_nil, Bool.and_true, Bool.true_and, and_self]





/-- C6 counterexample: the example msgspec build performs a link, and no link
in its trace passes any `--export=PyInit...` flag — the msgspec link
invocation omits the explicit export of its `PyInit__core` entry symbol. -/
theorem C6_counterexample :
    (traceOf (runMsgspec exEnv exFS)).any isLink = true ∧
    (traceOf (runMsgspec exEnv exFS)).all linkExportsPyInit = false := by
  constructor <;> decide

theorem not_pyinit_prefix_dashL (r : String) :
    strIsPrefixOf "--export=PyInit" ("-L" ++ r) = false := by
  obtain ⟨l⟩ := r
  have hd : ("-L" ++ String.mk l).data = '-' :: 'L' :: l := rfl
  have he : ("--export=PyInit").data = '-' :: '-' :: "export=PyInit".data := rfl
  have c1 : (('-' : Char) == '-') = true := by decide
  have c2 : (('-' : Char) == 'L') = false := by decide
  simp [strIsPrefixOf, hd, he, List.isPrefixOf, c1, c2]

/-- C6 amended: the xxhash link invocation passes
`--export=PyInit__xxhash`, but the msgspec link invocation passes only
`--no-entry --shared --export-dynamic --allow-undefined` — it omits any
explicit `--export=PyInit...` flag; and in every run of the two stages each
link action uses exactly those flag lists. -/
theorem C6_link_exports :
    (∀ r, "--export=PyInit__xxhash" ∈ xxhashLinkFlags r) ∧
    (∀ r, "--export-dynamic" ∈ msgspecLinkFlags r ∧
      (msgspecLinkFlags r).all (fun f => !(strIsPrefixOf "--export=PyInit" f)) = true) ∧
    (∀ env fs, (traceOf (runXxhash env fs)).all
      (linkFlagsAre (xxhashLinkFlags (env.clangResourceDir ++ "/lib/wasm32-unknown-wasi"))) = true) ∧
    (∀ env fs, (traceOf (runMsgspec env fs)).all
      (linkFlagsAre (msgspecLinkFlags (env.clangResourceDir ++ "/lib/wasm32-unknown-wasi"))) = true) := by
  refine ⟨?_, ?_, ?_, ?_⟩
  · intro r; simp [xxhashLinkFlags]
  · intro r
    refine ⟨by simp [msgspecLinkFlags], ?_⟩
    simp only [msgspecLinkFlags, List.all_cons, List.all_nil,
      not_pyinit_prefix_dashL, Bool.not_false, Bool.and_true, Bool.true_and]
    decide
  · intro env fs
    exact runXxhash_all env _ fs (fun m => rfl) (fun u d ok => rfl) (fun ok => rfl)
      (fun m => rfl) (fun a d => rfl) (fun s d => rfl) (fun s o f => rfl)
      (fun ins => beq_self_eq_true _) (fun p => rfl) rfl rfl
  · intro env fs
    exact runMsgspec_all env _ fs (fun m => rfl) (fun u d ok => rfl) (fun ok => rfl)
      (fun m => rfl) (fun a d => rfl) (fun s d => rfl) (fun s o f => rfl)
      (fun ins => beq_self_eq_true _) (fun p => rfl) rfl rfl

/-- C8: both extension stages embed the same ABI tag (`cpython-312`) and the
same target triple (`wasm32-wasi`) in their compiled-module filenames, which
have the shape `<basename>.<abi-tag>-<triple>.so`; and in every run, each
stage's link step writes exactly that filename inside its package tree. -/
theorem C8_abi_consistency :
    xxhashCpythonTag = msgspecCpythonTag ∧
    xxhashExtTriple = msgspecExtTriple ∧
    xxhashExtName = xxhashExtBasename ++ "." ++ xxhashCpythonTag ++ "-" ++ xxhashExtTriple ++ ".so" ∧
    msgspecExtName = msgspecExtBasename ++ "." ++ msgspecCpythonTag ++ "-" ++ msgspecExtTriple ++ ".so" ∧
    (∀ env fs, (traceOf (runXxhash env fs)).all
      (linkOutIs (xxhashPkgDir ++ "/xxhash/" ++ xxhashExtName)) = true) ∧
    (∀ env fs, (traceOf (runMsgspec env fs)).all
      (linkOutIs (msgspecPkgDir ++ "/msgspec/" ++ msgspecExtName)) = true) := by
  refine ⟨rfl, rfl, rfl, rfl, ?_, ?_⟩
  · intro env fs
    exact runXxhash_all env _ fs (fun m => rfl) (fun u d ok => rfl) (fun ok => rfl)
      (fun m => rfl) (fun a d => rfl) (fun s d => rfl) (fun s o f => rfl)
      (fun ins => beq_self_eq_true _) (fun p => rfl) rfl rfl
  · intro env fs
    exact runMsgspec_all env _ fs (fun m => rfl) (fun u d ok => rfl) (fun ok => rfl)
      (fun m => rfl) (fun a d => rfl) (fun s d => rfl) (fun s o f => rfl)
      (fun ins => beq_self_eq_true _) (fun p => rfl) rfl rfl

-- Generic invariant transfer for the toolchain script's helper chain

theorem cpythonConfigure_all (env : Env) (P : Act → Bool)
    (evs : List (Act × FS)) (fs : FS)
    (hevs : (evs.map Prod.fst).all P = true)
    (herr : ∀ m, P (Act.errorExit m) = true)
    (hconf : ∀ w, P (Act.configure w) = true)
    (hcopy : ∀ s d, P (Act.copyTree s d) = true) :
    (traceOf (cpythonConfigure env evs fs)).all P = true := by
  unfold cpythonConfigure
  dsimp only
  repeat' split
  all_goals simp_all only [traceOf, List.map_append, List.map_cons, List.map_nil,
    List.all_append, List.all_cons, List.all_nil, Bool.and_true, Bool.true_and, and_self]

theorem cpythonPyVerify_all (env : Env) (P : Act → Bool)
    (evs : List (Act × FS)) (fs : FS)
    (hevs : (evs.map Prod.fst).all P = true)
    (hverifyP : ∀ ok, P (Act.verify "python.sha256sum" false ok) = true)
    (hlog : ∀ m, P (Act.log m) = true)
    (herr : ∀ m, P (Act.errorExit m) = true)
    (hunpack : ∀ a d, P (Act.unpack a d) = true)
    (hconf : ∀ w, P (Act.configure w) = true)
    (hcopy : ∀ s d, P (Act.copyTree s d) = true) :
    (traceOf (cpythonPyVerify env evs fs)).all P = true := by
  unfold cpythonPyVerify
  dsimp only
  repeat' split
  all_goals first
    | (exact cpythonConfigure_all env P _ _ (by simp_all <;> try assumption) herr hconf hcopy)
    | simp_all only [traceOf, List.map_append, List.map_cons, List.map_nil,
        List.all_append, List.all_cons, List.all_nil, Bool.and_true, Bool.true_and, and_self]

theorem cpythonPySection_all (env : Env) (P : Act → Bool)
    (evs : List (Act × FS)) (fs : FS)
    (hevs : (evs.map Prod.fst).all P = true)
    (hverifyP : ∀ ok, P (Act.verify "python.sha256sum" false ok) = true)
    (hlog : ∀ m, P (Act.log m) = true)
    (hdl : ∀ ok, P (Act.download pyUrl pyTarballPath ok) = true)
    (herr : ∀ m, P (Act.errorExit m) = true)
    (hunpack : ∀ a d, P (Act.unpack a d) = true)
    (hconf : ∀ w, P (Act.configure w) = true)
    (hcopy : ∀ s d, P (Act.copyTree s d) = true) :
    (traceOf (cpythonPySection env evs fs)).all P = true := by
  unfold cpythonPySection
  dsimp only
  repeat' split
  all_goals first
    | (exact cpythonPyVerify_all env P _ _ (by simp_all <;> try assumption) hverifyP hlog herr
        hunpack hconf hcopy)
    | simp_all only [traceOf, List.map_append, List.map_cons, List.map_nil,
        List.all_append, List.all_cons, List.all_nil, Bool.and_true, Bool.true_and, and_self]

theorem cpythonSdkChecks_all (env : Env) (P : Act → Bool)
    (evs : List (Act × FS)) (fs : FS)
    (hevs : (evs.map Prod.fst).all P = true)
    (hverifyP : ∀ ok, P (Act.verify "python.sha256sum" false ok) = true)
    (hlog : ∀ m, P (Act.log m) = true)
    (hdl : ∀ ok, P (Act.download pyUrl pyTarballPath ok) = true)
    (herr : ∀ m, P (Act.errorExit m) = true)
    (hunpack : ∀ a d, P (Act.unpack a d) = true)
    (hconf : ∀ w, P (Act.configure w) = true)
    (hcopy : ∀ s d, P (Act.copyTree s d) = true) :
    (traceOf (cpythonSdkChecks env evs fs)).all P = true := by
  unfold cpythonSdkChecks
  dsimp only
  repeat' split
  all_goals first
    | (exact cpythonPySection_all env P _ _ (by simp_all <;> try assumption) hverifyP hlog hdl
        herr hunpack hconf hcopy)
    | simp_all only [traceOf, List.map_append, List.map_cons, List.map_nil,
        List.all_append, List.all_cons, List.all_nil, Bool.and_true, Bool.true_and, and_self]

theorem cpythonSdkVerify_all (env : Env) (P : Act → Bool) (platform : String)
    (evs : List (Act × FS)) (fs : FS)
    (hevs : (evs.map Prod.fst).all P = true)
    (hverifyW : ∀ ok, P (Act.verify "wasi-sdk.sha256sum" true ok) = true)
    (hverifyP : ∀ ok, P (Act.verify "python.sha256sum" false ok) = true)
    (hlog : ∀ m, P (Act.log m) = true)
    (hdl : ∀ ok, P (Act.download pyUrl pyTarballPath ok) = true)
    (herr : ∀ m, P (Act.errorExit m) = true)
    (hunpack : ∀ a d, P (Act.unpack a d) = true)
    (hmove : ∀ s d, P (Act.move s d) = true)
    (hconf : ∀ w, P (Act.configure w) = true)
    (hcopy : ∀ s d, P (Act.copyTree s d) = true) :
    (traceOf (cpythonSdkVerify env platform evs fs)).all P = true := by
  unfold cpythonSdkVerify
  dsimp only
  repeat' split
  all_goals first
    | (exact cpythonSdkChecks_all env P _ _ (by simp_all <;> try assumption) hverifyP hlog hdl
        herr hunpack hconf hcopy)
    | simp_all only [traceOf, List.map_append, List.map_cons, List.map_nil,
        List.all_append, List.all_cons, List.all_nil, Bool.and_true, Bool.true_and, and_self]

theorem runCpython_all (env : Env) (P : Act → Bool) (fs : FS)
    (hverifyW : ∀ ok, P (Act.verify "wasi-sdk.sha256sum" true ok) = true)
    (hverifyP : ∀ ok, P (Act.verify "python.sha256sum" false ok) = true)
    (hlog : ∀ m, P (Act.log m) = true)
    (hdlP : ∀ ok, P (Act.download pyUrl pyTarballPath ok) = true)
    (hdlW : ∀ u d ok, P (Act.download u d ok) = true)
    (herr : ∀ m, P (Act.errorExit m) = true)
    (hunpack : ∀ a d, P (Act.unpack a d) = true)
    (hmove : ∀ s d, P (Act.move s d) = true)
    (hconf : ∀ w, P (Act.configure w) = true)
    (hcopy : ∀ s d, P (Act.copyTree s d) = true) :
    (traceOf (runCpython env fs)).all P = true := by
  unfold runCpython
  dsimp only
  repeat' split
  all_goals first
    | (exact cpythonSdkVerify_all env P _ _ _ (by simp_all <;> try assumption) hverifyW
        hverifyP hlog hdlP herr hunpack hmove hconf hcopy)
    | simp_all only [traceOf, List.map_append, List.map_cons, List.map_nil,
        List.all_append, List.all_cons, List.all_nil, Bool.and_true, Bool.true_and, and_self]

-- Checksum-mechanism helper lemmas

/-- Strict `shasum -c` fails as soon as one listed entry fails. -/
theorem shasumStrict_fails_of_entry (fs : FS) (dir : String)
    (entries : List (String × Nat)) (e : String × Nat)
    (he : e ∈ entries) (hok : entryOk fs dir e = false) :
    shasumCheck false fs dir entries = false := by
  cases hall : shasumCheck false fs dir entries
  · rfl
  · have := List.all_eq_true.mp (by simpa [shasumCheck] using hall) e he
    simp [hok] at this

/-- A checksum entry fails whenever the file's content is not the expected
complete digest. -/
theorem entryOk_false_of_ne (fs : FS) (dir nm : String) (exp : Nat)
    (h : fs.files.lookup (dir ++ "/" ++ nm) ≠ some (Content.complete exp)) :
    entryOk fs dir (nm, exp) = false := by
  unfold entryOk
  cases hl : fs.files.lookup (dir ++ "/" ++ nm) with
  | none => rfl
  | some c =>
    cases c with
    | incomplete => rfl
    | complete d =>
      have hd : d ≠ exp := by
        intro he
        exact h (by rw [hl, he])
      simp [beq_eq_false_iff_ne.mpr hd]





/-- C9 counterexample: the toolchain SDK is a pinned artifact, yet with a
checksum file containing no entry for the SDK tarball's filename the
`--ignore-missing` verification passes (another listed file happens to be
present and match), and the stage proceeds to unpack the unverified tarball
and completes successfully. -/
theorem C9_counterexample :
    exEnvNoEntry.wasiSums.lookup "wasi-sdk-27.0-x86_64-linux.tar.gz" = none ∧
    exFSStale.fileExists (wasiTarballPath "x86_64-linux") = true ∧
    (traceOf (runCpython exEnvNoEntry exFSStale)).any
      (isPassedVerifyOf "wasi-sdk.sha256sum") = true ∧
    (traceOf (runCpython exEnvNoEntry exFSStale)).any isUnpack = true ∧
    (runCpython exEnvNoEntry exFSStale).exit = 0 := by
  refine ⟨?_, ?_, ?_, ?_, ?_⟩ <;> decide

/-- C9 amended: the runtime-source and extension-source verifications run
strict `shasum -c`, which fails whenever any listed entry is absent or
mismatched; the toolchain-SDK verification passes `--ignore-missing` and does
NOT fail when the checksum file lacks an entry for the SDK tarball's filename
(no stage's verification checks a file that is not listed).  The flag usage is
fixed: in every run, only the `wasi-sdk.sha256sum` verification uses
`--ignore-missing`. -/
theorem C9_checksum_tolerance :
    (∀ (fs : FS) (dir : String) (entries : List (String × Nat)) (e : String × Nat),
      e ∈ entries → entryOk fs dir e = false →
      shasumCheck false fs dir entries = false) ∧
    (shasumCheck true exFSStale toolDir exEnvNoEntry.wasiSums = true ∧
      exEnvNoEntry.wasiSums.lookup "wasi-sdk-27.0-x86_64-linux.tar.gz" = none) ∧
    (∀ env fs, (traceOf (runXxhash env fs)).all verifyFlagOk = true) ∧
    (∀ env fs, (traceOf (runMsgspec env fs)).all verifyFlagOk = true) ∧
    (∀ env fs, (traceOf (runCpython env fs)).all verifyFlagOk = true) := by
  refine ⟨?_, ⟨by decide, by decide⟩, ?_, ?_, ?_⟩
  · exact shasumStrict_fails_of_entry
  · intro env fs
    exact runXxhash_all env _ fs (fun m => rfl) (fun u d ok => rfl)
      (fun ok => by cases ok <;> decide)
      (fun m => rfl) (fun a d => rfl) (fun s d => rfl) (fun s o f => rfl)
      (fun ins => rfl) (fun p => rfl) rfl rfl
  · intro env fs
    exact runMsgspec_all env _ fs (fun m => rfl) (fun u d ok => rfl)
      (fun ok => by cases ok <;> decide)
      (fun m => rfl) (fun a d => rfl) (fun s d => rfl) (fun s o f => rfl)
      (fun ins => rfl) (fun p => rfl) rfl rfl
  · intro env fs
    exact runCpython_all env _ fs (fun ok => by cases ok <;> decide)
      (fun ok => by cases ok <;> decide)
      (fun m => rfl) (fun ok => rfl) (fun u d ok => rfl) (fun m => rfl)
      (fun a d => rfl) (fun s d => rfl) (fun w => rfl) (fun s d => rfl)

/-- Witness for C9's amended theorem: a concrete strict verification fails on
a mismatched listed entry. -/
theorem C9_checksum_tolerance_witness :
    shasumCheck false exFSStale toolDir
      [("wasi-sdk-27.0-x86_64-linux.tar.gz", 13)] = false :=
  C9_checksum_tolerance.1 exFSStale toolDir
    [("wasi-sdk-27.0-x86_64-linux.tar.gz", 13)]
    ("wasi-sdk-27.0-x86_64-linux.tar.gz", 13)
    (by decide) (by decide)

theorem countZeroOfAllNot (l : List Act) (p : Act → Bool)
    (h : l.all (fun a => !(p a)) = true) : (l.filter p).length = 0 := by
  induction l with
  | nil => rfl
  | cons a rest ih =>
    simp only [List.all_cons, Bool.and_eq_true, Bool.not_eq_true'] at h
    simp [List.filter_cons, h.1, ih (by simp [h.2])]

/-- Every execution of the xxhash tail records its checksum verification. -/
theorem xxhashFromVerify_hasVerify (env : Env) (evs : List (Act × FS)) (fs : FS) :
    (traceOf (xxhashFromVerify env evs fs)).any (isVerifyOf "xxhash.sha256sum") = true := by
  unfold xxhashFromVerify
  dsimp only
  repeat' split
  all_goals simp [traceOf, List.any_append, isVerifyOf]

/-- Every execution of the msgspec tail records its checksum verification. -/
theorem msgspecFromVerify_hasVerify (env : Env) (evs : List (Act × FS)) (fs : FS) :
    (traceOf (msgspecFromVerify env evs fs)).any (isVerifyOf "msgspec.sha256sum") = true := by
  unfold msgspecFromVerify
  dsimp only
  repeat' split
  all_goals simp [traceOf, List.any_append, isVerifyOf]

/-- Every execution of the CPython source verify step records its checksum
verification. -/
theorem cpythonPyVerify_hasVerify (env : Env) (evs : List (Act × FS)) (fs : FS) :
    (traceOf (cpythonPyVerify env evs fs)).any (isVerifyOf "python.sha256sum") = true := by
  unfold cpythonPyVerify cpythonConfigure
  dsimp only
  repeat' split
  all_goals simp [traceOf, List.any_append, isVerifyOf]

/-- C10: whenever a stage runs past its output-existence cache check with the
source archive already present in the tool-cache, no download happens and the
archive's checksum is still verified; and if the cached archive's bytes do not
match the pinned entry in the checksum file, the stage fails (exit 1) having
performed zero compile/link work and zero extraction. -/
theorem C10_cached_archive_checked :
    (∀ env fs,
      fs.fileExists xxhashOutTar = false →
      fs.isExec (wasiDir ++ "/bin/clang") = true →
      fs.dirExists pyHeadersDir = true →
      fs.dirExists (env.clangResourceDir ++ "/lib/wasm32-unknown-wasi") = true →
      fs.fileExists (xxhashArchiveFile env.xxhashVer) = true →
      underTree xxhashBuildDir (xxhashArchiveFile env.xxhashVer) = false →
      networkCount (traceOf (runXxhash env fs)) = 0 ∧
      (traceOf (runXxhash env fs)).any (isVerifyOf "xxhash.sha256sum") = true ∧
      (∀ nm exp, (nm, exp) ∈ env.xxhashSums →
        toolDir ++ "/" ++ nm = xxhashArchiveFile env.xxhashVer →
        fs.files.lookup (xxhashArchiveFile env.xxhashVer) ≠ some (Content.complete exp) →
        (runXxhash env fs).exit = 1 ∧
        compileWorkCount (traceOf (runXxhash env fs)) = 0 ∧
        unpackCount (traceOf (runXxhash env fs)) = 0)) ∧
    (∀ env fs,
      fs.fileExists msgspecOutTar = false →
      fs.isExec (wasiDir ++ "/bin/clang") = true →
      fs.dirExists pyHeadersDir = true →
      fs.dirExists (env.clangResourceDir ++ "/lib/wasm32-unknown-wasi") = true →
      fs.fileExists (msgspecArchiveFile env.msgspecVer) = true →
      underTree msgspecBuildDir (msgspecArchiveFile env.msgspecVer) = false →
      networkCount (traceOf (runMsgspec env fs)) = 0 ∧
      (traceOf (runMsgspec env fs)).any (isVerifyOf "msgspec.sha256sum") = true ∧
      (∀ nm exp, (nm, exp) ∈ env.msgspecSums →
        toolDir ++ "/" ++ nm = msgspecArchiveFile env.msgspecVer →
        fs.files.lookup (msgspecArchiveFile env.msgspecVer) ≠ some (Content.complete exp) →
        (runMsgspec env fs).exit = 1 ∧
        compileWorkCount (traceOf (runMsgspec env fs)) = 0 ∧
        unpackCount (traceOf (runMsgspec env fs)) = 0)) ∧
    (∀ env fs platform,
      resolvePlatform env.ostype env.unameArch = PlatformResult.ok platform →
      fs.fileExists (wasiTarballPath platform) = true →
      shasumCheck true (fs.addDir toolDir) toolDir env.wasiSums = true →
      fs.dirExists wasiDir = true →
      fs.isExec (wasiDir ++ "/bin/clang") = true →
      fs.fileExists (env.clangResourceDir ++ "/lib/wasm32-unknown-wasi" ++
        "/libclang_rt.builtins.a") = true →
      fs.dirExists pyHeadersDir = false →
      fs.fileExists pyTarballPath = true →
      networkCount (traceOf (runCpython env fs)) = 0 ∧
      (traceOf (runCpython env fs)).any (isVerifyOf "python.sha256sum") = true ∧
      (∀ nm exp, (nm, exp) ∈ env.pythonSums →
        toolDir ++ "/" ++ nm = pyTarballPath →
        fs.files.lookup pyTarballPath ≠ some (Content.complete exp) →
        (runCpython env fs).exit = 1 ∧
        compileWorkCount (traceOf (runCpython env fs)) = 0 ∧
        unpackCount (traceOf (runCpython env fs)) = 0)) := by
  refine ⟨?_, ?_, ?_⟩
  · intro env fs h1 h2 h3 h4 h5 h6
    have e1 : (fs.addDir toolDir).fileExists xxhashOutTar = false := h1
    have e2 : (fs.addDir toolDir).isExec (wasiDir ++ "/bin/clang") = true := h2
    have e3 : (fs.addDir toolDir).dirExists pyHeadersDir = true :=
      dirExists_addDir_of fs toolDir pyHeadersDir h3
    have e4 : (fs.addDir toolDir).dirExists
        (env.clangResourceDir ++ "/lib/wasm32-unknown-wasi") = true :=
      dirExists_addDir_of fs toolDir _ h4
    have e5 : ((((fs.addDir toolDir).removeTree xxhashBuildDir).addDir
        xxhashBuildDir).addDir xxhashPkgDir).fileExists
        (xxhashArchiveFile env.xxhashVer) = true := by
      rw [fileExists_addDir, fileExists_addDir,
        fileExists_removeTree _ _ _ h6, fileExists_addDir]
      exact h5
    have hlk : ((((fs.addDir toolDir).removeTree xxhashBuildDir).addDir
        xxhashBuildDir).addDir xxhashPkgDir).files.lookup
        (xxhashArchiveFile env.xxhashVer) =
        fs.files.lookup (xxhashArchiveFile env.xxhashVer) := by
      rw [files_addDir, files_addDir, lookup_removeTree _ _ _ h6, files_addDir]
    unfold runXxhash
    dsimp only
    simp only [e1, e2, e3, e4, e5, Bool.not_true, Bool.not_false, Bool.false_eq_true,
      Bool.true_eq_false, if_true, if_false, ite_true, ite_false]
    refine ⟨?_, xxhashFromVerify_hasVerify env _ _, ?_⟩
    · apply countZeroOfAllNot
      exact xxhashFromVerify_all env _ _ _ (by simp [isNetworkWork]) (fun ok => rfl)
        (fun m => rfl) (fun a d => rfl) (fun s d => rfl) (fun s o f => rfl)
        (fun ins => rfl) (fun p => rfl) rfl rfl
    · intro nm exp hmem hnm hcorrupt
      have hok : shasumCheck false
          ((((fs.addDir toolDir).removeTree xxhashBuildDir).addDir
            xxhashBuildDir).addDir xxhashPkgDir) toolDir env.xxhashSums = false := by
        apply shasumStrict_fails_of_entry _ _ _ (nm, exp) hmem
        apply entryOk_false_of_ne
        rw [hnm, hlk]
        exact hcorrupt
      unfold xxhashFromVerify
      dsimp only
      rw [hok]
      simp [traceOf, compileWorkCount, unpackCount, isCompileWork, isUnpack,
        List.filter_append]
  · intro env fs h1 h2 h3 h4 h5 h6
    have e1 : (fs.addDir toolDir).fileExists msgspecOutTar = false := h1
    have e2 : (fs.addDir toolDir).isExec (wasiDir ++ "/bin/clang") = true := h2
    have e3 : (fs.addDir toolDir).dirExists pyHeadersDir = true :=
      dirExists_addDir_of fs toolDir pyHeadersDir h3
    have e4 : (fs.addDir toolDir).dirExists
        (env.clangResourceDir ++ "/lib/wasm32-unknown-wasi") = true :=
      dirExists_addDir_of fs toolDir _ h4
    have e5 : ((((fs.addDir toolDir).removeTree msgspecBuildDir).addDir
        msgspecBuildDir).addDir msgspecPkgDir).fileExists
        (msgspecArchiveFile env.msgspecVer) = true := by
      rw [fileExists_addDir, fileExists_addDir,
        fileExists_removeTree _ _ _ h6, fileExists_addDir]
      exact h5
    have hlk : ((((fs.addDir toolDir).removeTree msgspecBuildDir).addDir
        msgspecBuildDir).addDir msgspecPkgDir).files.lookup
        (msgspecArchiveFile env.msgspecVer) =
        fs.files.lookup (msgspecArchiveFile env.msgspecVer) := by
      rw [files_addDir, files_addDir, lookup_removeTree _ _ _ h6, files_addDir]
    unfold runMsgspec
    dsimp only
    simp only [e1, e2, e3, e4, e5, Bool.not_true, Bool.not_false, Bool.false_eq_true,
      Bool.true_eq_false, if_true, if_false, ite_true, ite_false]
    refine ⟨?_, msgspecFromVerify_hasVerify env _ _, ?_⟩
    · apply countZeroOfAllNot
      exact msgspecFromVerify_all env _ _ _ (by simp [isNetworkWork]) (fun ok => rfl)
        (fun m => rfl) (fun a d => rfl) (fun s d => rfl) (fun s o f => rfl)
        (fun ins => rfl) (fun p => rfl) rfl rfl
    · intro nm exp hmem hnm hcorrupt
      have hok : shasumCheck false
          ((((fs.addDir toolDir).removeTree msgspecBuildDir).addDir
            msgspecBuildDir).addDir msgspecPkgDir) toolDir env.msgspecSums = false := by
        apply shasumStrict_fails_of_entry _ _ _ (nm, exp) hmem
        apply entryOk_false_of_ne
        rw [hnm, hlk]
        exact hcorrupt
      unfold msgspecFromVerify
      dsimp only
      rw [hok]
      simp [traceOf, compileWorkCount, unpackCount, isCompileWork, isUnpack,
        List.filter_append]
  · intro env fs platform hplat htar hw hdirW hclang hrt hnh hpt
    have e1 : (fs.addDir toolDir).fileExists (wasiTarballPath platform) = true := htar
    have e2 : (fs.addDir toolDir).dirExists wasiDir = true :=
      dirExists_addDir_of fs toolDir wasiDir hdirW
    have e3 : (fs.addDir toolDir).isExec (wasiDir ++ "/bin/clang") = true := hclang
    have e4 : (fs.addDir toolDir).fileExists (env.clangResourceDir ++
        "/lib/wasm32-unknown-wasi" ++ "/libclang_rt.builtins.a") = true := hrt
    have e5 : (fs.addDir toolDir).dirExists pyHeadersDir = false := by
      simp only [FS.dirExists, FS.addDir, List.contains_cons] at *
      simp only [Bool.or_eq_false_iff]
      exact ⟨by decide, hnh⟩
    have e6 : (fs.addDir toolDir).fileExists pyTarballPath = true := hpt
    unfold runCpython cpythonSdkVerify cpythonSdkChecks cpythonPySection
    rw [hplat]
    dsimp only
    simp only [e1, e2, e3, e4, e5, e6, hw, Bool.not_true, Bool.not_false,
      Bool.false_eq_true, Bool.true_eq_false, if_true, if_false, ite_true, ite_false]
    refine ⟨?_, cpythonPyVerify_hasVerify env _ _, ?_⟩
    · apply countZeroOfAllNot
      exact cpythonPyVerify_all env _ _ _ (by simp [isNetworkWork]) (fun ok => rfl)
        (fun m => rfl) (fun m => rfl) (fun a d => rfl) (fun w => rfl) (fun s d => rfl)
    · intro nm exp hmem hnm hcorrupt
      have hok : shasumCheck false (fs.addDir toolDir) toolDir env.pythonSums = false := by
        apply shasumStrict_fails_of_entry _ _ _ (nm, exp) hmem
        apply entryOk_false_of_ne
        rw [hnm, files_addDir]
        exact hcorrupt
      unfold cpythonPyVerify
      dsimp only
      rw [hok]
      simp [traceOf, compileWorkCount, unpackCount, isCompileWork, isUnpack,
        List.filter_append]



/-- Witness for C10: all three stages, run with a corrupted cached archive and
no network use, fail at verification. -/
theorem C10_cached_archive_checked_witness :
    (runXxhash exEnv exFSCorrupt).exit = 1 ∧
    (runMsgspec exEnv exFSCorrupt).exit = 1 ∧
    (runCpython exEnv exFSCorruptPy).exit = 1 :=
  ⟨((C10_cached_archive_checked.1 exEnv exFSCorrupt (by decide) (by decide) (by decide)
      (by decide) (by decide) (by decide)).2.2 "xxhash-3.4.1-pypi.tar.gz" 11 (by decide)
      (by decide) (by decide)).1,
   ((C10_cached_archive_checked.2.1 exEnv exFSCorrupt (by decide) (by decide) (by decide)
      (by decide) (by decide) (by decide)).2.2 "msgspec-0.19.0-github.tar.gz" 12 (by decide)
      (by decide) (by decide)).1,
   ((C10_cached_archive_checked.2.2 exEnv exFSCorruptPy "x86_64-linux" (by decide) (by decide)
      (by decide) (by decide) (by decide) (by decide) (by decide) (by decide)).2.2
      "Python-3.12.0.tgz" 14 (by decide) (by decide) (by decide)).1⟩

end Pipeline
